import Mathlib

/-
Verification of the protocol-adapter layer of the nwsl-data-platform
repository: a shallow embedding of `src/nwsl_analytics/mcp/http_server_v2.py`
(the JSON-RPC transport wrapper and method dispatcher) together with the
tool handlers of `src/nwsl_analytics/mcp/analytics_server.py`
(class `NWSLAnalyticsServer`).

Modelling boundary (matching spec section 2, which declares these
external collaborators):
* The BigQuery client and the analytics query builders
  (`ExpectedGoalsCalculator`, `ShotQualityProfiler`,
  `ReplacementValueEstimator`) are modelled as a `Store` of pure
  functions from query / filter arguments to tabular results; a raised
  exception is modelled as an `Except.error` carrying the exception text.
* A dataframe row is a list of named cells.  A cell is a string, an
  integer, a rational (standing for a Python float; binary floating
  point artefacts are out of scope of every claim considered here) or
  NaN.  A missing column, which would raise `KeyError` in Python,
  renders as NaN here; no claim distinguishes the two.
* The outbound HTTP fetch of `_ingest_current_roster` (requests +
  BeautifulSoup) is modelled as a `Web` function from the URL to either
  a failure message or the already-extracted stats table, since no claim
  depends on HTML syntax.
* Tool argument values are modelled as JSON scalars (string, integer,
  float, boolean); a JSON `null` argument value behaves like an absent
  key in every handler (all reads go through `dict.get` followed by a
  truthiness test), so it is modelled by omitting the key.
-/

namespace NWSL

/-- Scalar JSON argument value, as passed in `arguments` of a tool call. -/
inductive Prim where
  | str (v : String)
  | int (v : Int)
  | flt (v : Rat)
  | bool (v : Bool)
deriving DecidableEq

/-- An `arguments` mapping: association list, first binding wins
(Python dicts have unique keys). -/
abbrev Args := List (String × Prim)

/-- A client-supplied JSON-RPC request id: string, number or null.
An absent `id` behaves exactly like `null` (`json_data.get("id")`
returns `None`), so it is modelled by `null`. -/
inductive ReqId where
  | s (v : String)
  | num (v : Int)
  | null
deriving DecidableEq

/-- One content block of a tool-call result, `{type, text}`. -/
structure TextContent where
  type : String
  text : String
deriving DecidableEq

/-- Shorthand for the text block the handlers produce
(`types.TextContent(type="text", text=t)`). -/
def tc (t : String) : TextContent := ⟨"text", t⟩

/-- One dataframe cell: NaN, integer, float (as a rational) or string. -/
inductive Cell where
  | na
  | i (v : Int)
  | f (v : Rat)
  | s (v : String)
deriving DecidableEq

/-- One dataframe row: named cells. -/
abbrev Row := List (String × Cell)

/-- Python-style exception result: `Except.error` carries `str(e)`. -/
abbrev Py (α : Type) := Except String α

/-- Fixed-point decimal rendering of a rational, `d` digits after the
point, as by a Python `:.df` format spec (rounding of exact halves
differs from IEEE binary behaviour only on ties, which no claim
exercises). -/
def fmtFixed (d : Nat) (q : Rat) : String :=
  let m : Int := round (q * ((10 : Rat) ^ d))
  let sign := if m < 0 then "-" else ""
  let p : Nat := 10 ^ d
  let n := m.natAbs
  if d = 0 then sign ++ toString (n / p) else
    let fs := toString (n % p)
    sign ++ toString (n / p) ++ "." ++ String.mk (List.replicate (d - fs.length) '0') ++ fs

/-- Decimal rendering of a rational standing for a Python float, as by
`str()`/`repr()`: exact decimal expansion for decimally-representable
values (the only ones the modelled stores produce). -/
def ratRepr (q : Rat) : String :=
  match (List.range 19).find? (fun k => (q * ((10 : Rat)) ^ k).den = 1) with
  | some 0 => toString q.num ++ ".0"
  | some k => fmtFixed k q
  | none => toString q.num ++ "/" ++ toString q.den

/-- Truncation of a rational toward zero, as by Python `int(float)`. -/
def ratTrunc (q : Rat) : Int :=
  if 0 ≤ q then q.floor else -((-q).floor)

/-- Python `str()` / f-string interpolation of a scalar argument. -/
def pyStr : Prim → String
  | .str v => v
  | .int v => toString v
  | .flt v => ratRepr v
  | .bool v => if v then "True" else "False"

/-- `pat` is a prefix of `cs` (character-list level). -/
def isPrefixChars : List Char → List Char → Bool
  | [], _ => true
  | _ :: _, [] => false
  | p :: ps, h :: hs => p == h && isPrefixChars ps hs

/-- Whitespace-stripping of both ends, as by Python `str.strip()`. -/
def trimChars (cs : List Char) : List Char :=
  ((cs.dropWhile Char.isWhitespace).reverse.dropWhile Char.isWhitespace).reverse

/-- The natural number denoted by a digit list. -/
def digitsToNat (cs : List Char) : Nat :=
  cs.foldl (fun a c => a * 10 + (c.toNat - 48)) 0

/-- The integer denoted by a trimmed literal: an optional minus sign
followed by at least one digit (the grammar `int()` accepts for the
inputs modelled here). -/
def intOfChars (cs : List Char) : Option Int :=
  match cs with
  | [] => none
  | '-' :: rest =>
    if rest ≠ [] && rest.all Char.isDigit then some (-(digitsToNat rest : Int)) else none
  | _ => if cs.all Char.isDigit then some ((digitsToNat cs : Nat) : Int) else none

/-- Python `str.replace` (all non-overlapping occurrences, left to
right); the fuel is the string length, enough since a nonempty pattern
consumes at least one character per step.  (An empty pattern, which
Python treats as matching everywhere, is kept unchanged — no modelled
call site produces one.) -/
def replaceFuel (pat rep : List Char) : Nat → List Char → List Char
  | 0, s => s
  | Nat.succ fuel, s =>
    match s with
    | [] => []
    | c :: cs =>
      if isPrefixChars pat s && !pat.isEmpty then
        rep ++ replaceFuel pat rep fuel (s.drop pat.length)
      else c :: replaceFuel pat rep fuel cs

/-- Python `s.replace(pat, rep)`. -/
def pyReplace (s pat rep : String) : String :=
  String.mk (replaceFuel pat.data rep.data s.data.length s.data)

/-- Python truthiness of a scalar argument. -/
def Prim.truthy : Prim → Bool
  | .str v => v ≠ ""
  | .int v => v ≠ 0
  | .flt v => v ≠ 0
  | .bool v => v

/-- Python `int(x)` on a scalar; a non-numeric string raises
`ValueError`.  (`int("+5")`-style leading plus signs are accepted by
Python but not produced by any modelled input.) -/
def pyInt : Prim → Py Int
  | .int v => .ok v
  | .flt v => .ok (ratTrunc v)
  | .bool v => .ok (if v then 1 else 0)
  | .str v =>
    match intOfChars (trimChars v.data) with
    | some n => .ok n
    | none => .error ("invalid literal for int() with base 10: '" ++ v ++ "'")

/-- Python `x.lower()` on a scalar; non-strings raise `AttributeError`. -/
def pyLower : Prim → Py String
  | .str v => .ok (String.mk (v.data.map Char.toLower))
  | _ => .error "object has no attribute 'lower'"

/-- First binding for key `k` in an arguments mapping (`args.get(k)`). -/
def argGet? (args : Args) (k : String) : Option Prim :=
  (args.find? (fun kv => kv.1 == k)).map (·.2)

/-- `k in args`. -/
def hasKey (args : Args) (k : String) : Bool :=
  (argGet? args k).isSome

/-- `args.get(k, d)`. -/
def argGetD (args : Args) (k : String) (d : Prim) : Prim :=
  (argGet? args k).getD d

/-- `args[k]` under a guard that ensures the key is present. -/
def argR (args : Args) (k : String) : Prim :=
  (argGet? args k).getD (.str "")

/-- `args[k]`, raising `KeyError` (whose `str()` is the quoted key)
when the key is absent. -/
def requireArg (args : Args) (k : String) : Py Prim :=
  match argGet? args k with
  | some v => .ok v
  | none => .error ("'" ++ k ++ "'")

/-- Character-list substring scan. -/
def containsSubAux (pat : List Char) : List Char → Bool
  | [] => isPrefixChars pat []
  | h :: hs => isPrefixChars pat (h :: hs) || containsSubAux pat hs

/-- Substring test (the Python `in` operator on strings). -/
def containsSub (s pat : String) : Bool :=
  containsSubAux pat.data s.data

/-- Python `str.title()`: a letter is upper-cased exactly when the
previous character is not alphabetic. -/
def pyTitle (s : String) : String :=
  String.mk (s.data.foldl
    (fun (acc : List Char × Bool) c =>
      (acc.1 ++ [if acc.2 then c.toUpper else c.toLower], !c.isAlpha))
    ([], true)).1

/-- Last `n` elements of a list (`DataFrame.tail(n)`). -/
def lastN {α : Type} (n : Nat) (xs : List α) : List α :=
  xs.drop (xs.length - n)

/-- Cell read `row[c]` (missing columns render as NaN, see header note). -/
def Row.cellD (r : Row) (c : String) : Cell :=
  ((r.find? (fun kv => kv.1 == c)).map (·.2)).getD .na

/-- Numeric value of a cell, if any. -/
def Cell.num? : Cell → Option Rat
  | .i v => some (v : Rat)
  | .f v => some v
  | _ => none

/-- Python plain interpolation of a cell value (`nan` for NaN, exact
decimals for floats). -/
def Cell.py : Cell → String
  | .na => "nan"
  | .i v => toString v
  | .f v => ratRepr v
  | .s v => v

/-- A `:.df` format of a cell (`nan` renders as `nan`; a string cell
under a numeric format spec, which would raise in Python, renders as
itself — unreachable for store-produced rows, see header note). -/
def Cell.fmt (d : Nat) : Cell → String
  | .na => "nan"
  | .i v => fmtFixed d (v : Rat)
  | .f v => fmtFixed d v
  | .s v => v

/-- `cell > 0` under pandas comparison semantics (NaN compares false). -/
def Cell.gtZero (c : Cell) : Bool :=
  match c.num? with
  | some q => q > 0
  | none => false

/-- `cell < 0` under pandas comparison semantics (NaN compares false). -/
def Cell.ltZero (c : Cell) : Bool :=
  match c.num? with
  | some q => q < 0
  | none => false

/-- `pd.notna(cell)`. -/
def Cell.notna : Cell → Bool
  | .na => false
  | _ => true

/-- `df[c].sum()` with pandas NaN-skipping; an all-integer column sums
to an integer, otherwise to a float. -/
def colSumCell (rows : List Row) (c : String) : Cell :=
  let cells := rows.map (fun r => Row.cellD r c)
  let q : Rat := (cells.map (fun cl => (Cell.num? cl).getD 0)).sum
  if cells.all (fun cl => match cl with | .i _ => true | _ => false) then .i q.num
  else .f q

/-- `df[c].sum()` as a rational (for subsequent arithmetic). -/
def colSum (rows : List Row) (c : String) : Rat :=
  (rows.map (fun r => ((Row.cellD r c).num?).getD 0)).sum

/-! ### Team-name normalisation (`NWSLAnalyticsServer.__init__` /
`_normalize_team_name`) -/

/-- `self.team_mappings`: user-friendly team names to database Squad
names, keyed by the lower-cased, stripped input. -/
def teamMappings : List (String × String) :=
  [("north carolina courage", "Courage"),
   ("nc courage", "Courage"),
   ("courage", "Courage"),
   ("chicago red stars", "Red Stars"),
   ("red stars", "Red Stars"),
   ("houston dash", "Dash"),
   ("dash", "Dash"),
   ("orlando pride", "Pride"),
   ("pride", "Pride"),
   ("portland thorns", "Thorns"),
   ("thorns", "Thorns"),
   ("washington spirit", "Spirit"),
   ("spirit", "Spirit"),
   ("gotham fc", "Gotham FC"),
   ("gotham", "Gotham FC"),
   ("kansas city current", "Current"),
   ("current", "Current"),
   ("san diego wave", "Wave"),
   ("wave", "Wave"),
   ("angel city", "Angel City"),
   ("racing louisville", "Louisville"),
   ("louisville", "Louisville"),
   ("seattle reign", "Reign"),
   ("reign", "Reign"),
   ("utah royals", "Royals"),
   ("royals", "Royals"),
   ("bay fc", "Bay FC")]

/-- `_normalize_team_name` on a string that passed the truthiness
guard: `team_mappings.get(team_name.lower().strip(), team_name)`. -/
def normalizeTeam (t : String) : String :=
  let key := String.mk (trimChars (t.data.map Char.toLower))
  ((teamMappings.find? (fun kv => kv.1 == key)).map (·.2)).getD t

/-- `_normalize_team_name` applied to a raw (truthy) argument value;
`.lower()` on a non-string raises `AttributeError`. -/
def normalizeTeamP (p : Prim) : Py String := do
  pure (normalizeTeam (← pyLower p))

/-! ### External collaborators: warehouse client, query builders, web

Spec section 2 declares the data store and the per-analysis query
builders as external collaborators — "pure functions of
(store, filters) → table".  Each is a function field below; an
`Except.error` models an exception raised by the collaborator, carrying
the exception text. -/

/-- Result of `analyze_goal_generation_patterns` (a dict of a
`league_metrics` dict and a nested, possibly missing,
`position_metrics.position_breakdown` list). -/
structure GoalPatterns where
  league_metrics : List (String × Cell)
  position_breakdown : List Cell

/-- Result of `analyze_positional_shooting_patterns` (a dict of a
`position_data` row list and a `summary` dict). -/
structure PositionalPatterns where
  position_data : List Row
  summary : List (String × Cell)

/-- Result of `calculate_replacement_baselines` (a dict mapping a
position name to its stats dict, under `replacement_baselines`). -/
structure Baselines where
  replacement_baselines : List (String × Row)

/-- The warehouse client plus the three analytics query builders.
`query` is `bigquery_client.query(sql).to_dataframe()`; the remaining
fields are the builder methods the handlers call, in source order. -/
structure Store where
  query : String → Py (List Row)
  getPlayerXgAnalysis : Option Prim → Prim → Option String → Py (List Row)
  analyzeGoalGenerationPatterns : Prim → Py GoalPatterns
  findXgOverperformers : Prim → Prim → Py (List Row)
  calculateTeamXgEfficiency : Prim → Py (List Row)
  analyzeShootingProfiles : Prim → Prim → Py (List Row)
  analyzePositionalShootingPatterns : Prim → Py PositionalPatterns
  findShotQualityLeaders : Prim → Prim → Py (List Row)
  analyzeTeamShootingStyles : Prim → Py (List Row)
  calculateReplacementBaselines : Prim → Prim → Py Baselines
  calculatePlayerWarEstimates : Prim → Prim → Py (List Row)
  analyzeTeamRosterConstruction : Prim → Py (List Row)
  findUndervaluedPlayers : Prim → Prim → Py (List Row)

/-- The FBref page fetched by `_ingest_current_roster`, reduced to what
the handler extracts with BeautifulSoup: the body rows of the
`stats_standard` / `stats_table` table (cell texts, already stripped),
or `none` when no such table is found on the page. -/
structure FbrefPage where
  statsTable : Option (List (List String))

/-- Outcome of `requests.get(url)`: a page, or a
`requests.RequestException` with message text. -/
inductive FetchOutcome where
  | ok (page : FbrefPage)
  | err (msg : String)

/-- The external web, as seen through `requests.get`. -/
abbrev Web := String → FetchOutcome

/-! ### Server state (`NWSLAnalyticsServer.__init__`, lines 39-58)

The constructor catches every exception of the BigQuery-client /
builder construction and stores `None` in `bigquery_client`,
`xg_calculator`, `shot_profiler` and `war_estimator`; when the import
of the analytics modules failed, the three calculator attributes are
never assigned at all (so `hasattr` is false).  The server object
itself is always constructed. -/

/-- Process-wide state of the analytics server. -/
structure ServerState where
  /-- the analytics-module import at the top of `analytics_server.py`
  succeeded (`ExpectedGoalsCalculator` etc. are not `None`) -/
  importsOk : Bool
  /-- `self.bigquery_client`: `none` when client construction raised -/
  bigquery : Option Store

/-- `NWSLAnalyticsServer(project_id)` as a function of whether the
store-client construction succeeds: on failure the client and the
calculators are `None`, but the server is constructed either way. -/
def serverInit (storeOk : Bool) (importsOk : Bool) (store : Store) : ServerState :=
  { importsOk := importsOk, bigquery := if storeOk then some store else none }

/-- `self.project_id` (default argument). -/
def projectId : String := "nwsl-data"

/-- Whether the research-analytics tools are advertised:
`hasattr(mcp_server, 'xg_calculator') and mcp_server.xg_calculator`. -/
def xgAvailable (st : ServerState) : Bool :=
  st.importsOk && st.bigquery.isSome

/-- `self.bigquery_client.query(sql).to_dataframe()`; a `None` client
raises `AttributeError`. -/
def runQuery (st : ServerState) (sql : String) : Py (List Row) :=
  match st.bigquery with
  | none => .error "'NoneType' object has no attribute 'query'"
  | some store => store.query sql

/-! ### Tool handlers (`analytics_server.py`)

Every handler in the source returns a singleton
`[types.TextContent(type="text", text=...)]`; each is therefore
embedded as a function producing the single text. -/

/-- The shared defensive message for a missing `season` argument. -/
def seasonRequired : String :=
  "Error: Season parameter is required. Please specify a season (e.g., '2025', '2024', '2023')"

/-- The rows that `df.to_string(max_rows=50)` renders: all of them up
to 50, otherwise the first and last 25 around an ellipsis row. -/
def dfRenderedRows (rows : List Row) : List Row :=
  if rows.length ≤ 50 then rows else rows.take 25 ++ lastN 25 rows

/-- One rendered row of `df.to_string(max_cols=10)`: up to 10 cell
values (first and last 5 around an ellipsis when more), joined by
spaces.  Pandas column alignment/padding is abstracted; no claim
depends on it. -/
def renderRow (r : Row) : String :=
  let cells := r.map (fun kv => Cell.py kv.2)
  let shown := if cells.length ≤ 10 then cells else cells.take 5 ++ ["..."] ++ lastN 5 cells
  String.intercalate "  " shown

/-- `df.to_string(max_rows=50, max_cols=10)`. -/
def dfToString (rows : List Row) : String :=
  if rows.length ≤ 50 then String.intercalate "\n" (rows.map renderRow)
  else String.intercalate "\n"
    ((rows.take 25).map renderRow ++ ["..."] ++ (lastN 25 rows).map renderRow)

/-- `_handle_raw_query`'s result text as a function of the returned
table: the row-count header, the rendered table, and — exactly when
more than 50 rows came back — the truncation note. -/
def rawQueryFormat (rows : List Row) : String :=
  let base := "Query Results (" ++ toString rows.length ++ " rows):\n\n" ++ dfToString rows
  if rows.length > 50 then
    base ++ "\n\n... showing first 50 of " ++ toString rows.length ++ " rows"
  else base

/-- The project-prefix rewrite of `_handle_raw_query`: when the query
does not mention `nwsl-data.`, each `dataset.` is replaced by
`nwsl-data.dataset.`. -/
def prefixTransform (dataset query : String) : String :=
  if containsSub query (projectId ++ ".") then query
  else pyReplace query (dataset ++ ".") (projectId ++ "." ++ dataset ++ ".")

/-- The `in` / `replace` calls of `_handle_raw_query` need a string
query; any other scalar raises `TypeError` inside the handler's try. -/
def asQueryString : Prim → Py String
  | .str v => .ok v
  | _ => .error "argument of type 'str' is not iterable"

/-- `_handle_raw_query` (also reached as `_get_raw_data`). -/
def rawQueryText (st : ServerState) (args : Args) : String :=
  match st.bigquery with
  | none => "BigQuery client not available"
  | some store =>
    match (do
      let q0 ← asQueryString (← requireArg args "query")
      let dataset := pyStr (argGetD args "dataset" (.str "nwsl_fbref"))
      let rows ← store.query (prefixTransform dataset q0)
      pure (rawQueryFormat rows) : Py String) with
    | .ok t => t
    | .error e => "Query failed: " ++ e

/-- `_get_player_stats`, success path (inside its `try`). -/
def getPlayerStatsBody (st : ServerState) (args : Args) : Py String := do
  let season := argR args "season"
  let player_name := argGet? args "player_name"
  let team_name : Option String ←
    match argGet? args "team_name" with
    | some v => if v.truthy then do pure (some (← normalizeTeamP v)) else pure none
    | none => pure none
  let limit := argGetD args "limit" (.int 20)
  let n ← pyInt season
  let q0 := "\n            SELECT player_name, team, goals, assists, minutes_played, \n                   expected_goals, expected_assists, shots_on_target_pct\n            FROM `" ++ projectId ++ ".nwsl_fbref.player_stats_all_years`\n            WHERE season = " ++ toString n ++ "\n            "
  let q1 ←
    match player_name with
    | some p =>
      if p.truthy then do
        pure (q0 ++ " AND LOWER(player_name) LIKE '%" ++ (← pyLower p) ++ "%'")
      else pure q0
    | none => pure q0
  let q2 :=
    match team_name with
    | some t => if t ≠ "" then q1 ++ " AND team = '" ++ t ++ "'" else q1
    | none => q1
  let rows ← runQuery st (q2 ++ " ORDER BY goals DESC LIMIT " ++ pyStr limit)
  pure ("Player Statistics (" ++ pyStr season ++ "):\n\n" ++
    String.join (rows.map (fun r =>
      "• " ++ (Row.cellD r "player_name").py ++ " (" ++ (Row.cellD r "team").py ++ "): " ++
      (Row.cellD r "goals").py ++ " goals, " ++ (Row.cellD r "assists").py ++ " assists, " ++
      (Row.cellD r "minutes_played").py ++ " minutes\n")))

/-- `_get_player_stats`. -/
def getPlayerStatsText (st : ServerState) (args : Args) : String :=
  if !hasKey args "season" then seasonRequired
  else
    match getPlayerStatsBody st args with
    | .ok t => t
    | .error e => "Player stats failed: " ++ e

/-- `_get_team_stats`, success path. -/
def getTeamStatsBody (st : ServerState) (args : Args) : Py String := do
  let season := argR args "season"
  let team_name := argGet? args "team_name"
  let n ← pyInt season
  let q0 := "\n            SELECT team, \n                   SUM(goals) as total_goals,\n                   SUM(assists) as total_assists,\n                   SUM(expected_goals) as total_xg,\n                   COUNT(*) as squad_size\n            FROM `" ++ projectId ++ ".nwsl_fbref.player_stats_all_years`\n            WHERE season = " ++ toString n ++ "\n            "
  let q1 ←
    match team_name with
    | some t =>
      if t.truthy then do
        pure (q0 ++ " AND team = '" ++ (← normalizeTeamP t) ++ "'")
      else pure q0
    | none => pure q0
  let rows ← runQuery st (q1 ++ " GROUP BY team ORDER BY total_goals DESC")
  pure ("Team Statistics (" ++ pyStr season ++ "):\n\n" ++
    String.join (rows.map (fun r =>
      "• " ++ (Row.cellD r "team").py ++ ": " ++ (Row.cellD r "total_goals").py ++
      " goals, " ++ (Row.cellD r "total_xg").fmt 1 ++ " xG, " ++
      (Row.cellD r "squad_size").py ++ " players\n")))

/-- `_get_team_stats`. -/
def getTeamStatsText (st : ServerState) (args : Args) : String :=
  if !hasKey args "season" then seasonRequired
  else
    match getTeamStatsBody st args with
    | .ok t => t
    | .error e => "Team stats failed: " ++ e

/-- `_get_standings`, success path. -/
def getStandingsBody (st : ServerState) (args : Args) : Py String := do
  let season := argR args "season"
  let n ← pyInt season
  let rows ← runQuery st
    ("\n            SELECT team,\n                   SUM(goals) as goals_for,\n                   COUNT(*) as games_played\n            FROM `" ++ projectId ++ ".nwsl_fbref.player_stats_all_years`\n            WHERE season = " ++ toString n ++ "\n            GROUP BY team\n            ORDER BY goals_for DESC\n            ")
  pure ("League Standings (" ++ pyStr season ++ ") - by Goals:\n\n" ++
    String.join (rows.enum.map (fun ir =>
      toString (ir.1 + 1) ++ ". " ++ (Row.cellD ir.2 "team").py ++ ": " ++
      (Row.cellD ir.2 "goals_for").py ++ " goals\n")))

/-- `_get_standings`. -/
def getStandingsText (st : ServerState) (args : Args) : String :=
  if !hasKey args "season" then seasonRequired
  else
    match getStandingsBody st args with
    | .ok t => t
    | .error e => "Standings failed: " ++ e

/-- `_get_match_results` (static note; the store is never queried). -/
def getMatchResultsText (args : Args) : String :=
  if !hasKey args "season" then seasonRequired
  else
    "Match Results (" ++ pyStr (argR args "season") ++ "):\n\n" ++
    "Note: Individual match data not available in current dataset.\n" ++
    "Available data includes season-long player statistics aggregated by team.\n"

/-- `_analyze_player_performance`: delegates to `_get_player_stats`
with `limit=1` (a `None` `player_name` behaves as an absent key). -/
def analyzePlayerPerformanceText (st : ServerState) (args : Args) : String :=
  if !hasKey args "season" then seasonRequired
  else
    getPlayerStatsText st
      ([("season", argR args "season")] ++
       (match argGet? args "player_name" with
        | some p => [("player_name", p)]
        | none => []) ++ [("limit", .int 1)])

/-- `_analyze_team_performance`: delegates to `_get_team_stats`. -/
def analyzeTeamPerformanceText (st : ServerState) (args : Args) : String :=
  if !hasKey args "season" then seasonRequired
  else
    getTeamStatsText st
      ([("season", argR args "season")] ++
       (match argGet? args "team_name" with
        | some t => [("team_name", t)]
        | none => []))

/-- `_find_correlations`, success path (`df.iloc[0]` raises
`IndexError` on an empty result, caught by the handler's `except`). -/
def findCorrelationsBody (st : ServerState) (args : Args) : Py String := do
  let season := argR args "season"
  let n ← pyInt season
  let rows ← runQuery st
    ("\n            SELECT \n                CORR(goals, expected_goals) as goals_xg_correlation,\n                CORR(assists, expected_assists) as assists_xa_correlation,\n                COUNT(*) as sample_size\n            FROM `" ++ projectId ++ ".nwsl_fbref.player_stats_all_years`\n            WHERE season = " ++ toString n ++ " AND minutes_played > 450\n            ")
  let row ←
    match rows with
    | [] => (.error "single positional indexer is out-of-bounds" : Py Row)
    | r :: _ => pure r
  pure ("Statistical Correlations (" ++ pyStr season ++ "):\n\n" ++
    "• Goals vs xG correlation: " ++ (Row.cellD row "goals_xg_correlation").fmt 3 ++ "\n" ++
    "• Assists vs xA correlation: " ++ (Row.cellD row "assists_xa_correlation").fmt 3 ++ "\n" ++
    "• Sample size: " ++ (Row.cellD row "sample_size").py ++ " players\n")

/-- `_find_correlations`. -/
def findCorrelationsText (st : ServerState) (args : Args) : String :=
  if !hasKey args "season" then seasonRequired
  else
    match findCorrelationsBody st args with
    | .ok t => t
    | .error e => "Correlation analysis failed: " ++ e

/-- Python `f"{x}"` on an optional value (`None` renders as `None`). -/
def pyStrOpt : Option Prim → String
  | some p => pyStr p
  | none => "None"

/-- `_compare_teams`: two `_get_team_stats` calls glued together
(`None` teams behave as absent keys in the delegated call). -/
def compareTeamsText (st : ServerState) (args : Args) : String :=
  if !hasKey args "season" then seasonRequired
  else
    let season := argR args "season"
    let team1 := argGet? args "team1"
    let team2 := argGet? args "team2"
    let sub : Option Prim → String := fun t =>
      getTeamStatsText st
        ([("season", season)] ++ (match t with | some v => [("team_name", v)] | none => []))
    "Team Comparison (" ++ pyStr season ++ "):\n\n" ++
    pyStrOpt team1 ++ ":\n" ++ sub team1 ++ "\n" ++
    pyStrOpt team2 ++ ":\n" ++ sub team2 ++ "\n"

/-- `_get_nwsl_players`, success path. -/
def getNwslPlayersBody (st : ServerState) (args : Args) : Py String := do
  let player_name := argGet? args "player_name"
  let position := argGet? args "position"
  let nationality := argGet? args "nationality"
  let team_name := argGet? args "team_name"
  let limit := argGetD args "limit" (.int 50)
  let q0 := "\n            SELECT DISTINCT player_name, team, position, nationality\n            FROM `" ++ projectId ++ ".nwsl_fbref.player_stats_all_years`\n            WHERE 1=1\n            "
  let q1 ←
    match player_name with
    | some p =>
      if p.truthy then do
        pure (q0 ++ " AND LOWER(player_name) LIKE '%" ++ (← pyLower p) ++ "%'")
      else pure q0
    | none => pure q0
  let q2 :=
    match position with
    | some p => if p.truthy then q1 ++ " AND position = '" ++ pyStr p ++ "'" else q1
    | none => q1
  let q3 :=
    match nationality with
    | some p => if p.truthy then q2 ++ " AND nationality = '" ++ pyStr p ++ "'" else q2
    | none => q2
  let q4 ←
    match team_name with
    | some t =>
      if t.truthy then do
        pure (q3 ++ " AND team = '" ++ (← normalizeTeamP t) ++ "'")
      else pure q3
    | none => pure q3
  let rows ← runQuery st (q4 ++ " ORDER BY player_name LIMIT " ++ pyStr limit)
  pure ("NWSL Player Roster:\n\n" ++
    String.join (rows.map (fun r =>
      "• " ++ (Row.cellD r "player_name").py ++ " (" ++ (Row.cellD r "team").py ++ ") - " ++
      (Row.cellD r "position").py ++ ", " ++ (Row.cellD r "nationality").py ++ "\n")))

/-- `_get_nwsl_players`. -/
def getNwslPlayersText (st : ServerState) (args : Args) : String :=
  match getNwslPlayersBody st args with
  | .ok t => t
  | .error e => "Player roster failed: " ++ e

/-- `_get_nwsl_teams`. -/
def getNwslTeamsText (st : ServerState) : String :=
  match (do
    let rows ← runQuery st
      ("\n            SELECT DISTINCT team, COUNT(*) as squad_size\n            FROM `" ++ projectId ++ ".nwsl_fbref.player_stats_all_years`\n            GROUP BY team\n            ORDER BY team\n            ")
    pure ("NWSL Teams:\n\n" ++
      String.join (rows.map (fun r =>
        "• " ++ (Row.cellD r "team").py ++ " (" ++ (Row.cellD r "squad_size").py ++
        " players across all seasons)\n"))) : Py String) with
  | .ok t => t
  | .error e => "Team info failed: " ++ e

/-- `_get_nwsl_games` (static note; the store is never queried). -/
def getNwslGamesText (args : Args) : String :=
  if !hasKey args "season" then seasonRequired
  else
    "NWSL Games (" ++ pyStr (argR args "season") ++ "):\n\n" ++
    "Note: Individual game data not available in current dataset.\n" ++
    "Available data includes season-long player statistics.\n"

/-- The `sort_by` → column mapping of `_get_team_roster`. -/
def sortMapping : List (String × String) :=
  [("total_contributions", "(PERF_Gls + PERF_Ast)"),
   ("goals", "PERF_Gls"),
   ("assists", "PERF_Ast"),
   ("expected_goals", "EXP_xG"),
   ("minutes_played", "PT_Min")]

/-- `sort_mapping.get(sort_by, "(PERF_Gls + PERF_Ast)")` (a non-string
`sort_by` never matches a string key and falls to the default). -/
def sortColumnOf (p : Prim) : String :=
  match p with
  | .str s => ((sortMapping.find? (fun kv => kv.1 == s)).map (·.2)).getD "(PERF_Gls + PERF_Ast)"
  | _ => "(PERF_Gls + PERF_Ast)"

/-- `_get_team_roster`, success path. -/
def getTeamRosterBody (st : ServerState) (args : Args) : Py String := do
  let season := argR args "season"
  let team := argR args "team"
  let min_minutes := argGetD args "min_minutes" (.int 200)
  let sort_by := argGetD args "sort_by" (.str "total_contributions")
  let normalized_team ← normalizeTeamP team
  let sort_column := sortColumnOf sort_by
  let n ← pyInt season
  let rows ← runQuery st
    ("\n            SELECT \n                Player as player_name,\n                Pos as position,\n                PT_Min as minutes_played,\n                PERF_Gls as goals,\n                PERF_Ast as assists,\n                EXP_xG as expected_goals,\n                EXP_xAG as expected_assists,\n                P90_Gls as goals_per_90,\n                P90_Ast as assists_per_90,\n                (PERF_Gls + PERF_Ast) as total_contributions,\n                ROUND(PERF_Gls / NULLIF(EXP_xG, 0), 2) as goal_conversion_rate,\n                ROUND(EXP_xG + EXP_xAG, 2) as total_expected_contributions\n            FROM `" ++ projectId ++ ".nwsl_fbref.player_stats_all_years`\n            WHERE Squad = '" ++ normalized_team ++ "' \n                AND season = " ++ toString n ++ " \n                AND PT_Min >= " ++ pyStr min_minutes ++ "\n            ORDER BY " ++ sort_column ++ " DESC\n            ")
  if rows.isEmpty then
    pure ("No players found for " ++ pyStr team ++ " in " ++ pyStr season ++
      " with minimum " ++ pyStr min_minutes ++ " minutes played.")
  else
    pure (pyStr team ++ " Roster Analysis (" ++ pyStr season ++ "):\n" ++
      "Players with " ++ pyStr min_minutes ++ "+ minutes (sorted by " ++ pyStr sort_by ++ "):\n\n" ++
      String.join (rows.map (fun r =>
        let conversion :=
          if (Row.cellD r "goal_conversion_rate").notna then Row.cellD r "goal_conversion_rate"
          else Cell.f 0
        "• " ++ (Row.cellD r "player_name").py ++ " (" ++ (Row.cellD r "position").py ++ "): " ++
        (Row.cellD r "goals").py ++ "G + " ++ (Row.cellD r "assists").py ++ "A = " ++
        (Row.cellD r "total_contributions").py ++ " contributions, " ++
        (Row.cellD r "expected_goals").fmt 1 ++ "xG + " ++
        (Row.cellD r "expected_assists").fmt 1 ++ "xA, " ++
        (Row.cellD r "minutes_played").fmt 0 ++ " mins, " ++
        conversion.fmt 2 ++ " conversion rate\n")) ++
      "\nTeam Totals: " ++ (colSumCell rows "goals").py ++ "G + " ++
      (colSumCell rows "assists").py ++ "A, " ++
      fmtFixed 1 (colSum rows "expected_goals") ++ "xG + " ++
      fmtFixed 1 (colSum rows "expected_assists") ++ "xA")

/-- `_get_team_roster`. -/
def getTeamRosterText (st : ServerState) (args : Args) : String :=
  if !hasKey args "season" then seasonRequired
  else if !hasKey args "team" then
    "Error: Team parameter is required. Please specify a team name (e.g., 'Courage', 'Current', 'Spirit')"
  else
    match getTeamRosterBody st args with
    | .ok t => t
    | .error e => "Team roster analysis failed: " ++ e

/-- The playing-time buckets iterated by the `current_form` branch of
`_roster_intelligence`. -/
def playingTimeStatuses : List String :=
  ["Regular Starter", "Squad Player", "Rotation Option", "Limited Minutes"]

/-- `_roster_intelligence`, success path. -/
def rosterIntelligenceBody (st : ServerState) (args : Args) : Py String := do
  let season := argR args "season"
  let team := argR args "team"
  let analysis_type := argR args "analysis_type"
  let normalized_team ← normalizeTeamP team
  if analysis_type = .str "current_form" then do
    let n ← pyInt season
    let rows ← runQuery st
      ("\n                SELECT \n                    Player as player_name,\n                    Pos as position,\n                    PT_Min as minutes_played,\n                    PERF_Gls as goals,\n                    PERF_Ast as assists,\n                    EXP_xG as expected_goals,\n                    P90_Gls as goals_per_90,\n                    P90_Ast as assists_per_90,\n                    ROUND(PERF_Gls / NULLIF(EXP_xG, 0), 3) as conversion_rate,\n                    CASE \n                        WHEN PT_Min >= 900 THEN 'Regular Starter'\n                        WHEN PT_Min >= 450 THEN 'Squad Player'\n                        WHEN PT_Min >= 180 THEN 'Rotation Option'\n                        ELSE 'Limited Minutes'\n                    END as playing_time_status\n                FROM `" ++ projectId ++ ".nwsl_fbref.player_stats_all_years`\n                WHERE Squad = '" ++ normalized_team ++ "' AND season = " ++ toString n ++ "\n                ORDER BY PT_Min DESC\n                ")
    let statusBlocks := String.join (playingTimeStatuses.map (fun status =>
      let players := rows.filter (fun r => Row.cellD r "playing_time_status" == .s status)
      if players.isEmpty then ""
      else
        "\n" ++ status ++ " (" ++ toString players.length ++ " players):\n" ++
        String.join (players.map (fun r =>
          let conv :=
            if (Row.cellD r "conversion_rate").notna then Row.cellD r "conversion_rate"
            else Cell.f 0
          "• " ++ (Row.cellD r "player_name").py ++ " (" ++ (Row.cellD r "position").py ++ "): " ++
          (Row.cellD r "minutes_played").fmt 0 ++ " mins, " ++
          (Row.cellD r "goals").py ++ "G+" ++ (Row.cellD r "assists").py ++ "A, " ++
          conv.fmt 2 ++ " conversion\n"))))
    let total_goals := colSumCell rows "goals"
    let total_xg := colSum rows "expected_goals"
    let team_conversion : Rat :=
      if total_xg > 0 then ((total_goals.num?).getD 0) / total_xg else 0
    pure (pyStr team ++ " Current Form Analysis (" ++ pyStr season ++ "):\n\n" ++
      "**PLAYING TIME BREAKDOWN:**\n" ++ statusBlocks ++
      "\n**TEAM SUMMARY:**\n" ++
      "Total Goals: " ++ total_goals.py ++ ", Expected: " ++ fmtFixed 1 total_xg ++
      ", Conversion: " ++ fmtFixed 2 team_conversion ++ "\n" ++
      "Squad Size: " ++ toString rows.length ++ " players with minutes\n")
  else if analysis_type = .str "best_xi" then do
    let n ← pyInt season
    let rows ← runQuery st
      ("\n                WITH position_rankings AS (\n                    SELECT \n                        Player,\n                        Pos,\n                        PT_Min,\n                        PERF_Gls + PERF_Ast as contributions,\n                        EXP_xG + EXP_xAG as expected_contributions,\n                        CASE \n                            WHEN Pos LIKE '%GK%' THEN 'GK'\n                            WHEN Pos LIKE '%DF%' OR Pos LIKE '%CB%' OR Pos LIKE '%LB%' OR Pos LIKE '%RB%' THEN 'DF'  \n                            WHEN Pos LIKE '%MF%' OR Pos LIKE '%CM%' OR Pos LIKE '%DM%' OR Pos LIKE '%AM%' THEN 'MF'\n                            WHEN Pos LIKE '%FW%' OR Pos LIKE '%ST%' OR Pos LIKE '%LW%' OR Pos LIKE '%RW%' THEN 'FW'\n                            ELSE 'UTIL'\n                        END as position_group,\n                        ROW_NUMBER() OVER (\n                            PARTITION BY CASE \n                                WHEN Pos LIKE '%GK%' THEN 'GK'\n                                WHEN Pos LIKE '%DF%' OR Pos LIKE '%CB%' OR Pos LIKE '%LB%' OR Pos LIKE '%RB%' THEN 'DF'  \n                                WHEN Pos LIKE '%MF%' OR Pos LIKE '%CM%' OR Pos LIKE '%DM%' OR Pos LIKE '%AM%' THEN 'MF'\n                                WHEN Pos LIKE '%FW%' OR Pos LIKE '%ST%' OR Pos LIKE '%LW%' OR Pos LIKE '%RW%' THEN 'FW'\n                                ELSE 'UTIL'\n                            END \n                            ORDER BY (PERF_Gls + PERF_Ast + EXP_xG + EXP_xAG) DESC, PT_Min DESC\n                        ) as position_rank\n                    FROM `" ++ projectId ++ ".nwsl_fbref.player_stats_all_years`\n                    WHERE Squad = '" ++ normalized_team ++ "' AND season = " ++ toString n ++ " AND PT_Min >= 180\n                )\n                SELECT * FROM position_rankings \n                WHERE (position_group = 'GK' AND position_rank <= 1)\n                   OR (position_group = 'DF' AND position_rank <= 4) \n                   OR (position_group = 'MF' AND position_rank <= 4)\n                   OR (position_group = 'FW' AND position_rank <= 3)\n                ORDER BY position_group, position_rank\n                ")
    pure (pyStr team ++ " Optimal Starting XI (" ++ pyStr season ++ "):\n\n" ++
      String.join ((["GK", "DF", "MF", "FW"].map (fun pos_group =>
        let players := rows.filter (fun r => Row.cellD r "position_group" == .s pos_group)
        if players.isEmpty then ""
        else
          "**" ++ pos_group ++ ":**\n" ++
          String.join (players.map (fun r =>
            "• " ++ (Row.cellD r "Player").py ++ " (" ++ (Row.cellD r "Pos").py ++ "): " ++
            (Row.cellD r "contributions").fmt 0 ++ " contributions, " ++
            (Row.cellD r "expected_contributions").fmt 1 ++ " expected, " ++
            (Row.cellD r "PT_Min").fmt 0 ++ " mins\n")) ++ "\n"))))
  else if analysis_type = .str "underperformers" then do
    let n ← pyInt season
    let rows ← runQuery st
      ("\n                SELECT \n                    Player,\n                    Pos,\n                    PT_Min,\n                    PERF_Gls as goals,\n                    EXP_xG as expected_goals,\n                    PERF_Gls - EXP_xG as goal_difference,\n                    ROUND((PERF_Gls - EXP_xG) / NULLIF(EXP_xG, 0) * 100, 1) as underperformance_pct\n                FROM `" ++ projectId ++ ".nwsl_fbref.player_stats_all_years`\n                WHERE Squad = '" ++ normalized_team ++ "' \n                    AND season = " ++ toString n ++ " \n                    AND PT_Min >= 300\n                    AND EXP_xG >= 1.0\n                    AND (PERF_Gls - EXP_xG) < -1.0\n                ORDER BY (PERF_Gls - EXP_xG) ASC\n                ")
    pure (pyStr team ++ " Underperforming Players (" ++ pyStr season ++ "):\n\n" ++
      (if rows.isEmpty then "No significant underperformers found (good sign!).\n"
       else
         "Players significantly below expected goals:\n" ++
         String.join (rows.map (fun r =>
           "• " ++ (Row.cellD r "Player").py ++ " (" ++ (Row.cellD r "Pos").py ++ "): " ++
           (Row.cellD r "goals").py ++ " goals from " ++
           (Row.cellD r "expected_goals").fmt 1 ++ " xG (" ++
           (Row.cellD r "goal_difference").fmt 1 ++ " difference, " ++
           (Row.cellD r "underperformance_pct").fmt 0 ++ "% below expectation)\n"))))
  else
    -- analysis types with no implemented branch leave `result` unbound
    .error "local variable 'result' referenced before assignment"

/-- `_roster_intelligence`. -/
def rosterIntelligenceText (st : ServerState) (args : Args) : String :=
  if !hasKey args "season" || !hasKey args "team" || !hasKey args "analysis_type" then
    "Error: season, team, and analysis_type parameters are required"
  else
    match rosterIntelligenceBody st args with
    | .ok t => t
    | .error e => "Roster intelligence analysis failed: " ++ e

/-- One scraped roster entry of `_ingest_current_roster`. -/
structure RosterEntry where
  player_name : String
  nation : String
  position : String
  age : String
  minutes : String

/-- Python `str.isdigit()` (nonempty, all digits). -/
def isDigits (s : String) : Bool :=
  s ≠ "" && s.data.all Char.isDigit

/-- The minutes-detection scan of `_ingest_current_roster`: the first
cell among indices `4 ≤ i < min(len, 10)` that is all digits and
exceeds 50. -/
def detectMinutes (cells : List String) : String :=
  match ((cells.take 10).drop 4).find?
      (fun c => isDigits c && digitsToNat c.data > 50) with
  | some m => m
  | none => "0"

/-- Row extraction of `_ingest_current_roster`: rows of fewer than four
cells, empty names and the repeated `Player` header rows are skipped. -/
def extractRoster (tableRows : List (List String)) : List RosterEntry :=
  tableRows.filterMap (fun cells =>
    if cells.length ≥ 4 then
      let player_name := cells.getD 0 ""
      if player_name ≠ "" && player_name ≠ "Player" then
        some
          { player_name := player_name
            nation := cells.getD 1 ""
            position := cells.getD 2 ""
            age := cells.getD 3 ""
            minutes := detectMinutes cells }
      else none
    else none)

/-- The position groups of the scraped roster, in insertion order
(Python dict ordering), an empty position reading as `Unknown`. -/
def rosterPositions (roster : List RosterEntry) : List String :=
  roster.foldl
    (fun acc p =>
      let pos := if p.position ≠ "" then p.position else "Unknown"
      if acc.contains pos then acc else acc ++ [pos]) []

/-- `_ingest_current_roster` (web-facing: queries the FBref page, never
the store; the `update_database` branch is unimplemented in the source
and only appends a note). -/
def ingestCurrentRosterText (web : Web) (args : Args) : String :=
  if !hasKey args "team" || !hasKey args "fbref_url" then
    "Error: team and fbref_url parameters are required"
  else
    let team := argR args "team"
    let fbref_url := argR args "fbref_url"
    let update_db := argGetD args "update_database" (.bool false)
    match web (pyStr fbref_url) with
    | .err e => "Error fetching FBref page: " ++ e
    | .ok page =>
      match page.statsTable with
      | none =>
        "Error: Could not find player stats table on " ++ pyStr fbref_url ++
        ". Check URL format."
      | some tableRows =>
        let roster := extractRoster tableRows
        if roster.isEmpty then
          "Error: No player data found in table. URL may be incorrect or page structure changed."
        else
          "Current " ++ pyStr team ++ " Roster (Ingested from FBref):\n\n" ++
          "Found " ++ toString roster.length ++ " active players:\n\n" ++
          String.join ((rosterPositions roster).map (fun pos =>
            "**" ++ pos ++ ":**\n" ++
            String.join ((roster.filter (fun p =>
                (if p.position ≠ "" then p.position else "Unknown") == pos)).map (fun p =>
              let age_text := if p.age ≠ "" then ", Age " ++ p.age else ""
              let minutes_text := if p.minutes ≠ "0" then ", " ++ p.minutes ++ " mins" else ""
              "• " ++ p.player_name ++ " (" ++ p.nation ++ age_text ++ minutes_text ++ ")\n")) ++
            "\n")) ++
          (if update_db.truthy then
            "Note: Database update requested but not yet implemented. " ++
            "Currently showing scraped data for validation.\n"
           else "") ++
          "\nSource: " ++ pyStr fbref_url ++ "\n" ++
          "Scraped: " ++ toString roster.length ++ " players\n" ++
          "This roster reflects current 2025 squad composition."

/-! ### Research-analytics handlers

These three handlers test `if not self.xg_calculator:` (respectively
`shot_profiler`, `war_estimator`) *outside* their `try`.  When the
analytics-module import failed but the client constructor succeeded,
the attribute was never assigned and the test raises `AttributeError`,
which escapes the handler. -/

/-- A Python exception escaping a handler, as distinguished by the
transport wrapper (`except ValueError` → MethodNotFound,
`except TypeError` → InvalidParams, anything else → the generic
internal-error envelope). -/
inductive PyExc where
  | valueError (msg : String)
  | typeError (msg : String)
  | attributeError (msg : String)
deriving DecidableEq

/-- `_handle_xg_analysis`, success path. -/
def xgBody (store : Store) (args : Args) : Py String := do
  let analysis_type ← requireArg args "analysis_type"
  if !hasKey args "season" then
    pure seasonRequired
  else do
    let season := argR args "season"
    if analysis_type = .str "player_xg" then do
      let team_name : Option String ←
        match argGet? args "team" with
        | some v => if v.truthy then do pure (some (← normalizeTeamP v)) else pure none
        | none => pure none
      let rows ← store.getPlayerXgAnalysis (argGet? args "player_name") season team_name
      pure ("Player xG Analysis for " ++ pyStr season ++ ":\n\n" ++
        "Top Performers by Expected Goals:\n" ++
        String.join ((rows.take 15).map (fun r =>
          "• " ++ (Row.cellD r "player_name").py ++ " (" ++ (Row.cellD r "team").py ++ "): " ++
          (Row.cellD r "expected_goals").fmt 2 ++ " xG, " ++ (Row.cellD r "goals").py ++
          " goals (conversion: " ++ (Row.cellD r "goal_conversion_rate").fmt 2 ++ ")\n")))
    else if analysis_type = .str "league_patterns" then do
      let patterns ← store.analyzeGoalGenerationPatterns season
      pure ("League-wide Goal Generation Patterns (" ++ pyStr season ++ "):\n\n" ++
        "League Metrics:\n" ++
        String.join (patterns.league_metrics.map (fun kv =>
          "• " ++ pyTitle (pyReplace kv.1 "_" " ") ++ ": " ++ kv.2.py ++ "\n")) ++
        "\nPosition Breakdown:\n" ++
        String.join (patterns.position_breakdown.map (fun c => "• " ++ c.py ++ "\n")))
    else if analysis_type = .str "overperformers" then do
      let rows ← store.findXgOverperformers season (argGetD args "min_minutes" (.int 900))
      let over := (rows.filter (fun r => (Row.cellD r "goals_vs_expected").gtZero)).take 10
      let under := lastN 5 (rows.filter (fun r => (Row.cellD r "goals_vs_expected").ltZero))
      pure ("xG Over/Under-performers (" ++ pyStr season ++ "):\n\n" ++
        "Biggest Overperformers:\n" ++
        String.join (over.map (fun r =>
          "• " ++ (Row.cellD r "player_name").py ++ ": +" ++
          (Row.cellD r "goals_vs_expected").fmt 2 ++ " vs expected (" ++
          (Row.cellD r "performance_category").py ++ ")\n")) ++
        "\nBiggest Underperformers:\n" ++
        String.join (under.map (fun r =>
          "• " ++ (Row.cellD r "player_name").py ++ ": " ++
          (Row.cellD r "goals_vs_expected").fmt 2 ++ " vs expected (" ++
          (Row.cellD r "performance_category").py ++ ")\n")))
    else if analysis_type = .str "team_efficiency" then do
      let rows ← store.calculateTeamXgEfficiency season
      pure ("Team xG Efficiency (" ++ pyStr season ++ "):\n\n" ++
        String.join ((rows.take 10).map (fun r =>
          "• " ++ (Row.cellD r "team_name").py ++ ": " ++
          (Row.cellD r "team_conversion_rate").fmt 2 ++ " conversion rate, " ++
          (Row.cellD r "goals_vs_expected").fmt 1 ++ " vs expected\n")))
    else
      .error "local variable 'result' referenced before assignment"

/-- `_handle_xg_analysis`. -/
def xgAnalysis (st : ServerState) (args : Args) : Except PyExc String :=
  match st.bigquery, st.importsOk with
  | none, _ => .ok "Expected Goals Calculator not available"
  | some _, false =>
    .error (.attributeError "'NWSLAnalyticsServer' object has no attribute 'xg_calculator'")
  | some store, true =>
    .ok (match xgBody store args with
         | .ok t => t
         | .error e => "xG Analysis failed: " ++ e)

/-- `_handle_shot_analysis`, success path. -/
def shotBody (store : Store) (args : Args) : Py String := do
  let analysis_type ← requireArg args "analysis_type"
  if !hasKey args "season" then
    pure seasonRequired
  else do
    let season := argR args "season"
    if analysis_type = .str "player_profiles" then do
      let rows ← store.analyzeShootingProfiles season (argGetD args "min_minutes" (.int 450))
      pure ("Player Shooting Profiles (" ++ pyStr season ++ "):\n\n" ++
        "Top Shot Profiles:\n" ++
        String.join ((rows.take 15).map (fun r =>
          "• " ++ (Row.cellD r "player_name").py ++ " (" ++ (Row.cellD r "team").py ++ "): " ++
          (Row.cellD r "xg_per_90").fmt 2 ++ " xG/90, " ++
          (Row.cellD r "shooter_type").py ++ ", " ++ (Row.cellD r "finishing_quality").py ++ "\n")))
    else if analysis_type = .str "positional_patterns" then do
      let patterns ← store.analyzePositionalShootingPatterns season
      pure ("Positional Shooting Patterns (" ++ pyStr season ++ "):\n\n" ++
        String.join (patterns.position_data.map (fun r =>
          "• " ++ (Row.cellD r "position_group").py ++ ": " ++
          (Row.cellD r "avg_xg_per_90").fmt 2 ++ " avg xG/90, " ++
          (Row.cellD r "position_conversion_rate").fmt 2 ++ " conversion rate\n")) ++
        "\nSummary:\n" ++
        String.join (patterns.summary.map (fun kv =>
          "• " ++ pyTitle (pyReplace kv.1 "_" " ") ++ ": " ++ kv.2.py ++ "\n")))
    else if analysis_type = .str "quality_leaders" then do
      let rows ← store.findShotQualityLeaders season (argGetD args "min_shots" (.flt 2))
      pure ("Shot Quality Leaders (" ++ pyStr season ++ "):\n\n" ++
        String.join ((rows.take 10).map (fun r =>
          "• " ++ (Row.cellD r "player_name").py ++ ": " ++
          (Row.cellD r "estimated_xg_per_shot").fmt 3 ++ " xG/shot, " ++
          (Row.cellD r "volume_category").py ++ "\n")))
    else if analysis_type = .str "team_styles" then do
      let rows ← store.analyzeTeamShootingStyles season
      pure ("Team Shooting Styles (" ++ pyStr season ++ "):\n\n" ++
        String.join ((rows.take 10).map (fun r =>
          "• " ++ (Row.cellD r "team_name").py ++ ": " ++
          (Row.cellD r "attacking_style").py ++ ", " ++
          (Row.cellD r "finishing_quality").py ++ " finishing\n")))
    else
      .error "local variable 'result' referenced before assignment"

/-- `_handle_shot_analysis`. -/
def shotAnalysis (st : ServerState) (args : Args) : Except PyExc String :=
  match st.bigquery, st.importsOk with
  | none, _ => .ok "Shot Quality Profiler not available"
  | some _, false =>
    .error (.attributeError "'NWSLAnalyticsServer' object has no attribute 'shot_profiler'")
  | some store, true =>
    .ok (match shotBody store args with
         | .ok t => t
         | .error e => "Shot Analysis failed: " ++ e)

/-- `_handle_war_analysis`, success path. -/
def warBody (store : Store) (args : Args) : Py String := do
  let analysis_type ← requireArg args "analysis_type"
  if !hasKey args "season" then
    pure seasonRequired
  else do
    let season := argR args "season"
    if analysis_type = .str "replacement_baselines" then do
      let baselines ← store.calculateReplacementBaselines season (argGetD args "min_minutes" (.int 450))
      pure ("Replacement Level Baselines (" ++ pyStr season ++ "):\n\n" ++
        String.join (baselines.replacement_baselines.map (fun kv =>
          "• " ++ pyTitle kv.1 ++ ": " ++
          (Row.cellD kv.2 "replacement_contribution_per_90").fmt 3 ++
          " contributions/90 (from " ++ (Row.cellD kv.2 "total_players").py ++ " players)\n")))
    else if analysis_type = .str "player_war" then do
      let rows ← store.calculatePlayerWarEstimates season (argGetD args "min_minutes" (.int 450))
      pure ("Player WAR Estimates (" ++ pyStr season ++ "):\n\n" ++
        "Top WAR Performers:\n" ++
        String.join ((rows.take 15).map (fun r =>
          "• " ++ (Row.cellD r "player_name").py ++ " (" ++ (Row.cellD r "team").py ++ "): " ++
          (Row.cellD r "estimated_wins_above_replacement").fmt 2 ++ " WAR (" ++
          (Row.cellD r "value_tier").py ++ ")\n")))
    else if analysis_type = .str "team_construction" then do
      let rows ← store.analyzeTeamRosterConstruction season
      pure ("Team Roster Construction (" ++ pyStr season ++ "):\n\n" ++
        String.join ((rows.take 10).map (fun r =>
          "• " ++ (Row.cellD r "team").py ++ ": " ++
          (Row.cellD r "total_war").fmt 1 ++ " total WAR, " ++
          (Row.cellD r "roster_style").py ++ "\n")))
    else if analysis_type = .str "undervalued_players" then do
      let rows ← store.findUndervaluedPlayers season (argGetD args "min_war" (.flt (1/2)))
      pure ("High-Value Players (" ++ pyStr season ++ "):\n\n" ++
        String.join ((rows.take 15).map (fun r =>
          "• " ++ (Row.cellD r "player_name").py ++ " (" ++ (Row.cellD r "team").py ++ "): " ++
          (Row.cellD r "estimated_wins_above_replacement").fmt 2 ++ " WAR, " ++
          (Row.cellD r "war_per_90").fmt 3 ++ " WAR/90\n")))
    else
      .error "local variable 'result' referenced before assignment"

/-- `_handle_war_analysis`. -/
def warAnalysis (st : ServerState) (args : Args) : Except PyExc String :=
  match st.bigquery, st.importsOk with
  | none, _ => .ok "Replacement Value Estimator not available"
  | some _, false =>
    .error (.attributeError "'NWSLAnalyticsServer' object has no attribute 'war_estimator'")
  | some store, true =>
    .ok (match warBody store args with
         | .ok t => t
         | .error e => "WAR Analysis failed: " ++ e)

/-! ### Tool dispatch (`handle_tools_call`, `http_server_v2.py` 712-770) -/

/-- The tool-name dispatch chain of `handle_tools_call`, in source
order; an unmatched name raises `ValueError("Unknown tool: ...")`. -/
def dispatchTool (st : ServerState) (web : Web) (n : String) (args : Args) :
    Except PyExc String :=
  if n = "expected_goals_analysis" then xgAnalysis st args
  else if n = "shot_quality_analysis" then shotAnalysis st args
  else if n = "replacement_value_analysis" then warAnalysis st args
  else if n = "query_raw_data" then .ok (rawQueryText st args)
  else if n = "get_team_roster" then .ok (getTeamRosterText st args)
  else if n = "roster_intelligence" then .ok (rosterIntelligenceText st args)
  else if n = "ingest_current_roster" then .ok (ingestCurrentRosterText web args)
  else if n = "get_raw_data" then .ok (rawQueryText st args)
  else if n = "get_player_stats" then .ok (getPlayerStatsText st args)
  else if n = "get_team_stats" then .ok (getTeamStatsText st args)
  else if n = "get_standings" then .ok (getStandingsText st args)
  else if n = "get_match_results" then .ok (getMatchResultsText args)
  else if n = "analyze_player_performance" then .ok (analyzePlayerPerformanceText st args)
  else if n = "analyze_team_performance" then .ok (analyzeTeamPerformanceText st args)
  else if n = "find_correlations" then .ok (findCorrelationsText st args)
  else if n = "compare_teams" then .ok (compareTeamsText st args)
  else if n = "get_nwsl_players" then .ok (getNwslPlayersText st args)
  else if n = "get_nwsl_teams" then .ok (getNwslTeamsText st)
  else if n = "get_nwsl_games" then .ok (getNwslGamesText args)
  else .error (.valueError ("Unknown tool: " ++ n))

/-! ### Tool catalog (`handle_tools_list`, `http_server_v2.py` 258-710)

Per-property `description`, `default` and `pattern` entries are
presentation metadata: the server performs no argument validation at
all, and the schema aspects the spec names (required keys, enums,
numeric bounds) are the ones modelled. -/

/-- The JSON-Schema fragment of one declared property. -/
structure PropSchema where
  ptype : String
  enum : Option (List String)
  minimum : Option Int
  maximum : Option Int
deriving DecidableEq

/-- A property of the given type with no enum and no bounds. -/
def propS (t : String) : PropSchema := ⟨t, none, none, none⟩

/-- A string property with an enum. -/
def propEnum (es : List String) : PropSchema := ⟨"string", some es, none, none⟩

/-- An integer property with inclusive bounds. -/
def propBounded (lo hi : Int) : PropSchema := ⟨"integer", none, some lo, some hi⟩

/-- A declared input schema: named properties and the required subset. -/
structure InputSchema where
  properties : List (String × PropSchema)
  required : List String
deriving DecidableEq

/-- One catalog entry of `tools/list`. -/
structure ToolDescriptor where
  name : String
  title : String
  description : String
  inputSchema : InputSchema
deriving DecidableEq

/-- The research-analytics catalog, returned when
`mcp_server.xg_calculator` exists and is truthy. -/
def researchTools : List ToolDescriptor :=
  [{ name := "expected_goals_analysis"
     title := "Expected Goals Calculator"
     description := "Analyze expected goals patterns for the LIVE 2025 NWSL season and historical data. Research includes xG efficiency, overperformers, and goal generation patterns. The 2025 season is currently in progress with real-time data updates."
     inputSchema :=
       { properties :=
           [("analysis_type", propEnum ["player_xg", "league_patterns", "overperformers", "team_efficiency"]),
            ("season", propS "string"),
            ("player_name", propS "string"),
            ("team", propS "string"),
            ("min_minutes", propS "integer")]
         required := ["analysis_type", "season"] } },
   { name := "shot_quality_analysis"
     title := "Shot Quality Profiler"
     description := "Analyze shot quality and finishing patterns for the LIVE 2025 NWSL season and historical data. Breaks down shooting by volume, quality, position, and conversion rates. The 2025 season is in progress with real-time updates after each match week."
     inputSchema :=
       { properties :=
           [("analysis_type", propEnum ["player_profiles", "positional_patterns", "quality_leaders", "team_styles"]),
            ("season", propS "string"),
            ("min_minutes", propS "integer"),
            ("min_shots", propS "number")]
         required := ["analysis_type", "season"] } },
   { name := "replacement_value_analysis"
     title := "Replacement Value Estimator (WAR)"
     description := "Calculate player value above replacement level for the LIVE 2025 NWSL season and historical data. Provides WAR estimates and roster construction analysis. The 2025 season is currently in progress, enabling real-time player valuation and roster analysis."
     inputSchema :=
       { properties :=
           [("analysis_type", propEnum ["replacement_baselines", "player_war", "team_construction", "undervalued_players"]),
            ("season", propS "string"),
            ("min_minutes", propS "integer"),
            ("min_war", propS "number")]
         required := ["analysis_type", "season"] } },
   { name := "query_raw_data"
     title := "NWSL Raw Data Query"
     description := "Execute SQL queries against NWSL BigQuery datasets for custom analysis"
     inputSchema :=
       { properties := [("query", propS "string"), ("dataset", propS "string")]
         required := ["query"] } },
   { name := "get_team_roster"
     title := "Team Roster Analysis"
     description := "Get detailed player-by-player stats for a specific team, perfect for lineup optimization and player analysis."
     inputSchema :=
       { properties :=
           [("team", propS "string"),
            ("season", propS "string"),
            ("min_minutes", propS "integer"),
            ("sort_by", propEnum ["total_contributions", "goals", "assists", "expected_goals", "minutes_played"])]
         required := ["team", "season"] } },
   { name := "roster_intelligence"
     title := "Smart Roster Analysis"
     description := "Advanced roster analysis with recency weighting, form detection, and lineup optimization suggestions. Accounts for recent performance trends."
     inputSchema :=
       { properties :=
           [("team", propS "string"),
            ("season", propS "string"),
            ("analysis_type", propEnum ["current_form", "best_xi", "key_contributors", "underperformers", "recent_signings"]),
            ("position_focus", propS "string"),
            ("recency_days", propS "integer")]
         required := ["team", "season", "analysis_type"] } },
   { name := "ingest_current_roster"
     title := "Ingest Current Team Roster"
     description := "Scrape and ingest current 2025 roster data from FBref team pages to ensure lineup recommendations use active players only."
     inputSchema :=
       { properties :=
           [("team", propS "string"),
            ("fbref_url", propS "string"),
            ("update_database", propS "boolean")]
         required := ["team", "fbref_url"] } }]

/-- The fallback catalog of basic tools. -/
def basicTools : List ToolDescriptor :=
  [{ name := "get_raw_data"
     title := "NWSL Raw Data Access"
     description := "Get raw statistical data including squad stats, player stats, games data, team info, and professional FBref statistics from NWSL seasons."
     inputSchema :=
       { properties :=
           [("data_type", propEnum ["squad_stats", "player_stats", "games", "team_info", "fbref_team_stats", "fbref_player_stats", "fbref_matches", "fbref_player_match_stats"]),
            ("season", propS "string"),
            ("team_id", propS "string"),
            ("limit", propBounded 1 1000)]
         required := ["data_type", "season"] } },
   { name := "get_player_stats"
     title := "Player Statistics"
     description := "Get comprehensive player statistics with search by name/team. Returns goals, assists, minutes, and performance metrics."
     inputSchema :=
       { properties :=
           [("season", propS "string"),
            ("player_name", propS "string"),
            ("team_name", propS "string"),
            ("limit", propBounded 1 100)]
         required := ["season"] } },
   { name := "get_team_stats"
     title := "Team Statistics"
     description := "Get comprehensive team statistics including goals, xG, possession, and defensive metrics."
     inputSchema :=
       { properties := [("season", propS "string"), ("team_name", propS "string")]
         required := ["season"] } },
   { name := "get_standings"
     title := "League Standings"
     description := "Get current league standings with points, wins, losses, and goal difference."
     inputSchema :=
       { properties := [("season", propS "string")]
         required := ["season"] } },
   { name := "get_match_results"
     title := "Match Results"
     description := "Get recent match results with scores, attendance, and basic match statistics."
     inputSchema :=
       { properties :=
           [("season", propS "string"),
            ("team_name", propS "string"),
            ("limit", propBounded 1 50)]
         required := ["season"] } },
   { name := "analyze_player_performance"
     title := "Advanced Player Analysis"
     description := "Deep analysis of player performance including efficiency metrics, xG analysis, and performance trends."
     inputSchema :=
       { properties := [("player_name", propS "string"), ("season", propS "string")]
         required := ["player_name", "season"] } },
   { name := "analyze_team_performance"
     title := "Advanced Team Analysis"
     description := "Deep analysis of team performance including tactical insights, efficiency metrics, and comparative analysis."
     inputSchema :=
       { properties := [("team_name", propS "string"), ("season", propS "string")]
         required := ["team_name", "season"] } },
   { name := "find_correlations"
     title := "Statistical Correlations"
     description := "Find statistical correlations and patterns in team/player performance to uncover insights about what drives success."
     inputSchema :=
       { properties :=
           [("analysis_type", propEnum ["team_performance", "player_performance", "match_outcomes"]),
            ("season", propS "string"),
            ("metric_focus", propS "string")]
         required := ["analysis_type", "season"] } },
   { name := "compare_teams"
     title := "Team Comparison"
     description := "Compare two teams across multiple dimensions including tactical analysis, strengths/weaknesses, and head-to-head performance."
     inputSchema :=
       { properties :=
           [("team1", propS "string"),
            ("team2", propS "string"),
            ("season", propS "string")]
         required := ["team1", "team2", "season"] } },
   { name := "get_nwsl_players"
     title := "NWSL Player Roster"
     description := "Get comprehensive NWSL player roster data including positions, nationalities, and seasons played. Covers all players from 2016-2024."
     inputSchema :=
       { properties :=
           [("player_name", propS "string"),
            ("position", propS "string"),
            ("nationality", propS "string"),
            ("team_name", propS "string"),
            ("limit", propBounded 1 500)]
         required := [] } },
   { name := "get_nwsl_teams"
     title := "NWSL Team Information"
     description := "Get comprehensive NWSL team information including names, abbreviations, and identifiers."
     inputSchema :=
       { properties := [("team_name", propS "string")]
         required := [] } },
   { name := "get_nwsl_games"
     title := "NWSL Match Data"
     description := "Get detailed NWSL match data including scores, attendance, and match information from 2021-2024."
     inputSchema :=
       { properties :=
           [("season", propEnum ["2021", "2022", "2023", "2024", "all"]),
            ("team_name", propS "string"),
            ("limit", propBounded 1 200)]
         required := ["season"] } }]

/-- `handle_tools_list`: the research catalog when the calculators are
live, otherwise the basic catalog. -/
def toolsOf (st : ServerState) : List ToolDescriptor :=
  if xgAvailable st then researchTools else basicTools

/-- The advertised tool names. -/
def toolNames (st : ServerState) : List String :=
  (toolsOf st).map (·.name)

/-- JSON-Schema type check of one scalar value. -/
def Prim.typeOk : Prim → String → Bool
  | .str _, "string" => true
  | .int _, "integer" => true
  | .int _, "number" => true
  | .flt _, "number" => true
  | .bool _, "boolean" => true
  | _, _ => false

/-- One declared property accepts a value: right type, in the enum if
one is declared, within bounds if declared. -/
def propOk (ps : PropSchema) (v : Prim) : Bool :=
  v.typeOk ps.ptype &&
  (match ps.enum, v with
   | some es, .str s => es.contains s
   | some _, _ => false
   | none, _ => true) &&
  (match ps.minimum, v with
   | some lo, .int n => decide (lo ≤ n)
   | some _, _ => false
   | none, _ => true) &&
  (match ps.maximum, v with
   | some hi, .int n => decide (n ≤ hi)
   | some _, _ => false
   | none, _ => true)

/-- An arguments mapping satisfies an input schema: every required key
is present and every supplied value of a declared property passes
`propOk`. -/
def satisfies (sch : InputSchema) (args : Args) : Bool :=
  sch.required.all (fun k => hasKey args k) &&
  args.all (fun kv =>
    match (sch.properties.find? (fun p => p.1 == kv.1)).map (·.2) with
    | some ps => propOk ps kv.2
    | none => true)

/-- The schema of the catalog descriptor named `n`, if one exists. -/
def toolSchema? (st : ServerState) (n : String) : Option InputSchema :=
  ((toolsOf st).find? (fun d => d.name == n)).map (·.inputSchema)

/-- The arguments satisfy the declared schema of catalog tool `n`. -/
def satisfiesTool (st : ServerState) (n : String) (args : Args) : Bool :=
  match toolSchema? st n with
  | some sch => satisfies sch args
  | none => false

/-! ### Resources and prompts (`http_server_v2.py` 772-1007) -/

/-- One `resources/list` entry. -/
structure ResourceDesc where
  uri : String
  name : String
  description : String
  mimeType : String
deriving DecidableEq

/-- `handle_resources_list`. -/
def resourcesCatalog : List ResourceDesc :=
  [⟨"nwsl://seasons", "NWSL Seasons", "Available NWSL seasons with data", "text/plain"⟩,
   ⟨"nwsl://teams/2024", "NWSL Teams 2024", "List of NWSL teams for 2024 season", "text/plain"⟩,
   ⟨"nwsl://stats/summary/2024", "NWSL 2024 Season Summary", "Key statistics and highlights from 2024 season", "text/plain"⟩,
   ⟨"nwsl://standings/2024", "NWSL 2024 Standings", "Current league standings for 2024", "text/plain"⟩]

/-- One `resources/read` content block. -/
structure ResourceContent where
  uri : String
  mimeType : String
  text : String
deriving DecidableEq

/-- `handle_resources_read` content for `nwsl://seasons` (static). -/
def seasonsResourceText : String :=
  "Available NWSL seasons with data:\n• 2020-2025 (FBref professional stats)\n• 2016-2024 (Basic match data)\n• 2013-2015 (Limited data)"

/-- `handle_resources_read`: the per-URI content, with the two
data-backed URIs converting store failures into error text. -/
def resourcesReadRes (st : ServerState) (uri : String) : Except PyExc ResourceContent :=
  if uri = "nwsl://seasons" then
    .ok ⟨uri, "text/plain", seasonsResourceText⟩
  else if uri = "nwsl://teams/2024" then
    .ok ⟨uri, "text/plain",
      match (do
        let rows ← runQuery st
          ("\n            SELECT DISTINCT meta_data.team_name\n            FROM `" ++ projectId ++ ".nwsl_fbref.nwsl_team_season_stats_2024`\n            ORDER BY meta_data.team_name\n            ")
        pure ("NWSL 2024 Teams:\n" ++
          String.intercalate "\n" (rows.map (fun r =>
            "• " ++ (Row.cellD r "team_name").py))) : Py String) with
      | .ok t => t
      | .error e => "Error fetching teams: " ++ e⟩
  else if uri = "nwsl://stats/summary/2024" then
    .ok ⟨uri, "text/plain",
      match (do
        let rows ← runQuery st
          ("\n            SELECT \n                meta_data.team_name,\n                stats.stats.ttl_gls as goals,\n                ROUND(stats.stats.ttl_xg, 2) as xG,\n                stats.possession.avg_poss as possession\n            FROM `" ++ projectId ++ ".nwsl_fbref.nwsl_team_season_stats_2024`\n            ORDER BY stats.stats.ttl_gls DESC\n            LIMIT 5\n            ")
        pure ("NWSL 2024 Top Goal Scorers:\n" ++
          String.join (rows.map (fun r =>
            "• " ++ (Row.cellD r "team_name").py ++ ": " ++ (Row.cellD r "goals").py ++
            " goals (xG: " ++ (Row.cellD r "xG").py ++ ", Possession: " ++
            (Row.cellD r "possession").py ++ "%)\n"))) : Py String) with
      | .ok t => t
      | .error e => "Error fetching stats: " ++ e⟩
  else if uri = "nwsl://standings/2024" then
    .ok ⟨uri, "text/plain",
      "NWSL 2024 Standings:\n• Kansas City Current (56 goals)\n• Washington Spirit (49 goals)\n• Orlando Pride (43 goals)\n• NJ/NY Gotham FC (40 goals)\n• Portland Thorns (37 goals)"⟩
  else
    .error (.valueError ("Resource not found: " ++ uri))

/-- One declared prompt argument. -/
structure PromptArg where
  name : String
  description : String
  required : Bool
deriving DecidableEq

/-- One `prompts/list` entry. -/
structure PromptDesc where
  name : String
  description : String
  arguments : List PromptArg
deriving DecidableEq

/-- `handle_prompts_list`. -/
def promptsCatalog : List PromptDesc :=
  [⟨"analyze-team-performance",
    "Analyze a team's performance with xG and advanced metrics",
    [⟨"team_name", "Name of the NWSL team to analyze", true⟩,
     ⟨"season", "Season to analyze (e.g., '2024')", true⟩]⟩,
   ⟨"compare-teams",
    "Compare two NWSL teams across multiple metrics",
    [⟨"team1", "First team to compare", true⟩,
     ⟨"team2", "Second team to compare", true⟩,
     ⟨"season", "Season to compare (e.g., '2024')", true⟩]⟩,
   ⟨"season-recap",
    "Generate a comprehensive season recap with key statistics",
    [⟨"season", "Season to recap (e.g., '2024')", true⟩]⟩]

/-- One `prompts/get` message (`role` plus a text content block). -/
structure PromptMessage where
  role : String
  contentType : String
  text : String
deriving DecidableEq

/-- `handle_prompts_get`: description and messages per prompt name. -/
def promptsGetRes (name : String) (arguments : Args) :
    Except PyExc (String × List PromptMessage) :=
  if name = "analyze-team-performance" then
    let team_name := pyStr (argGetD arguments "team_name" (.str "[TEAM]"))
    let season := pyStr (argGetD arguments "season" (.str "2024"))
    .ok ("Analysis template for " ++ team_name ++ " in " ++ season,
      [⟨"user", "text",
        "Analyze the performance of " ++ team_name ++ " in the " ++ season ++ " NWSL season.\n\n" ++
        "Please provide a comprehensive analysis including:\n" ++
        "1. **Goals & xG Analysis**: Compare actual goals scored vs expected goals (xG)\n" ++
        "2. **Possession & Passing**: Analyze possession percentage and passing accuracy\n" ++
        "3. **Defensive Performance**: Look at tackles, clean sheets, and goals conceded\n" ++
        "4. **Key Strengths & Weaknesses**: Identify what the team does well and areas for improvement\n" ++
        "5. **Season Context**: How does this performance compare to other teams?\n\n" ++
        "Use the available NWSL analytics tools to gather the data and provide insights a professional soccer analyst would give to team management."⟩])
  else if name = "compare-teams" then
    let team1 := pyStr (argGetD arguments "team1" (.str "[TEAM1]"))
    let team2 := pyStr (argGetD arguments "team2" (.str "[TEAM2]"))
    let season := pyStr (argGetD arguments "season" (.str "2024"))
    .ok ("Comparison template for " ++ team1 ++ " vs " ++ team2 ++ " in " ++ season,
      [⟨"user", "text",
        "Compare " ++ team1 ++ " and " ++ team2 ++ " in the " ++ season ++ " NWSL season.\n\n" ++
        "Provide a detailed comparison including:\n" ++
        "1. **Offensive Statistics**: Goals, xG, shots, passing in final third\n" ++
        "2. **Defensive Statistics**: Goals conceded, tackles, clean sheets\n" ++
        "3. **Possession & Control**: Possession percentage, passing accuracy, build-up play\n" ++
        "4. **Head-to-Head**: If they played each other, analyze those matches\n" ++
        "5. **Strengths vs Weaknesses**: What each team does better than the other\n" ++
        "6. **Prediction**: Based on the data, who would likely win if they played?\n\n" ++
        "Use professional soccer analysis techniques and reference advanced metrics."⟩])
  else if name = "season-recap" then
    let season := pyStr (argGetD arguments "season" (.str "2024"))
    .ok ("Season recap template for " ++ season,
      [⟨"user", "text",
        "Create a comprehensive recap of the " ++ season ++ " NWSL season.\n\n" ++
        "Include:\n" ++
        "1. **Season Highlights**: Top performances, record-breaking moments\n" ++
        "2. **Leading Teams**: Analyze top 3 teams by different metrics (goals, xG, possession)\n" ++
        "3. **Surprise Performers**: Teams that over/under-performed expectations\n" ++
        "4. **Key Trends**: What tactical or statistical trends defined the season\n" ++
        "5. **Statistical Leaders**: Top scorers, best xG performers, defensive leaders\n" ++
        "6. **Memorable Matches**: Highest-scoring games, biggest upsets\n" ++
        "7. **Season Summary**: Overall assessment of the league's development\n\n" ++
        "Write this as a professional season review that could be published by a major sports outlet."⟩])
  else
    .error (.valueError ("Unknown prompt: " ++ name))

/-! ### Method routing and the JSON-RPC envelope
(`http_server_v2.py` 120-234) -/

/-- The `clientInfo` member of the params mapping, as far as
`handle_initialize` can observe it: absent (so `params.get("clientInfo", {})`
yields the empty dict), present as a JSON object (whose `name`/`version`
entries feed only a log line), or present as any non-dict JSON value
such as `null` — on which `client_info.get(...)` raises
`AttributeError`.  The carried string is the Python type name that
appears in the exception text (`'NoneType' object has no attribute
'get'`). -/
inductive ClientInfo where
  | absent
  | obj (fields : List (String × Prim))
  | nondict (typeName : String)
deriving DecidableEq

/-- `clientInfo` supports the `.get` calls of the logging line. -/
def ClientInfo.getable : ClientInfo → Bool
  | .nondict _ => false
  | _ => true

/-- The request `params` object, restricted to the keys whose values
can influence a response: `name`, `uri`, `arguments` and `clientInfo`.
A falsey `name`/`uri` (Python `None`, empty string, `0`, `False`) is
collapsed onto an empty string since every consumer applies an
`if not x:` test first.  `handle_initialize` additionally reads
`protocolVersion` and `capabilities` with `.get` defaults into locals
it never uses again — no JSON value of those members can raise or
change the response, so they are not carried; `clientInfo` is carried
because a present non-dict value raises (see `handleInit`). -/
structure Params where
  name : Option String
  uri : Option String
  arguments : Args
  clientInfo : ClientInfo
deriving DecidableEq

/-- The empty `params` (`params.get(...)` defaults). -/
def Params.empty : Params := ⟨none, none, [], .absent⟩

/-- The `params` of a `tools/call`. -/
def callParams (n : String) (args : Args) : Params := ⟨some n, none, args, .absent⟩

/-- A method result, one constructor per result shape of spec §6. -/
inductive MCPResult where
  | initRes (protocolVersion serverName serverVersion : String) (capabilities : List String)
  | toolsList (tools : List ToolDescriptor)
  | toolsCall (content : List TextContent)
  | resourcesList (resources : List ResourceDesc)
  | resourcesRead (contents : List ResourceContent)
  | promptsList (prompts : List PromptDesc)
  | promptsGet (description : String) (messages : List PromptMessage)
deriving DecidableEq

/-- `MCP_PROTOCOL_VERSION`. -/
def mcpProtocolVersion : String := "2024-11-05"

/-- `handle_initialize`: on every params mapping whose `clientInfo`
is absent or a dict, a constant of the fixed server identity, with no
store access.  A present non-dict `clientInfo` raises `AttributeError`
in the eagerly evaluated logging f-string
(`client_info.get('name', 'Unknown')`), which escapes `handle_method`
(only `ValueError`/`TypeError` are caught there) and reaches the outer
`except` of `mcp_endpoint`. -/
def handleInit (params : Params) : Except PyExc MCPResult :=
  match params.clientInfo with
  | .nondict t =>
    .error (.attributeError ("'" ++ t ++ "' object has no attribute 'get'"))
  | _ =>
    .ok (.initRes mcpProtocolVersion "nwsl-analytics" "1.0.0" ["tools", "resources", "prompts"])

/-- `handle_tools_call`: a falsey `name` raises
`TypeError("Missing required parameter: name")`; otherwise the
dispatched handler's text blocks are re-wrapped as
`{"type": "text", "text": item.text}` entries. -/
def handleToolsCall (st : ServerState) (web : Web) (params : Params) :
    Except PyExc (List TextContent) :=
  match params.name with
  | none => .error (.typeError "Missing required parameter: name")
  | some n =>
    if n = "" then .error (.typeError "Missing required parameter: name")
    else (dispatchTool st web n params.arguments).map (fun t => [tc t])

/-- `handle_resources_read` entry: a falsey `uri` raises `TypeError`. -/
def handleResourcesRead (st : ServerState) (params : Params) :
    Except PyExc ResourceContent :=
  match params.uri with
  | none => .error (.typeError "Missing required parameter: uri")
  | some u =>
    if u = "" then .error (.typeError "Missing required parameter: uri")
    else resourcesReadRes st u

/-- `handle_prompts_get` entry: a falsey `name` raises `TypeError`. -/
def handlePromptsGet (params : Params) :
    Except PyExc (String × List PromptMessage) :=
  match params.name with
  | none => .error (.typeError "Missing required parameter: name")
  | some n =>
    if n = "" then .error (.typeError "Missing required parameter: name")
    else promptsGetRes n params.arguments

/-- `handle_method`: the fixed method table; an unknown method raises
`ValueError("Method not found: ...")`. -/
def handleMethod (st : ServerState) (web : Web) (method : String) (params : Params) :
    Except PyExc MCPResult :=
  if method = "initialize" then handleInit params
  else if method = "tools/list" then .ok (.toolsList (toolsOf st))
  else if method = "tools/call" then (handleToolsCall st web params).map .toolsCall
  else if method = "resources/list" then .ok (.resourcesList resourcesCatalog)
  else if method = "resources/read" then
    (handleResourcesRead st params).map (fun c => .resourcesRead [c])
  else if method = "prompts/list" then .ok (.promptsList promptsCatalog)
  else if method = "prompts/get" then
    (handlePromptsGet params).map (fun pg => .promptsGet pg.1 pg.2)
  else .error (.valueError ("Method not found: " ++ method))

/-- The fixed JSON-RPC error codes. -/
def PARSE_ERROR : Int := -32700
/-- `INVALID_REQUEST`. -/
def INVALID_REQUEST : Int := -32600
/-- `METHOD_NOT_FOUND`. -/
def METHOD_NOT_FOUND : Int := -32601
/-- `INVALID_PARAMS`. -/
def INVALID_PARAMS : Int := -32602
/-- `INTERNAL_ERROR`. -/
def INTERNAL_ERROR : Int := -32603

/-- A JSON-RPC response envelope (`jsonrpc: "2.0"` implied):
`create_success_response` / `create_error_response`. -/
inductive Response where
  | success (id : ReqId) (result : MCPResult)
  | error (id : ReqId) (code : Int) (message : String) (data : Option String)
deriving DecidableEq

/-- The `id` field echoed in a response envelope. -/
def Response.rid : Response → ReqId
  | .success id _ => id
  | .error id _ _ _ => id

/-- Whether a response is an error envelope. -/
def Response.isError : Response → Bool
  | .error .. => true
  | .success .. => false

/-- A parsed JSON-RPC request object: the fields `mcp_endpoint`
extracts with `json_data.get(...)`. -/
structure RawRequest where
  jsonrpc : Option String
  id : ReqId
  method : Option String
  params : Params
deriving DecidableEq

/-- What reached `mcp_endpoint`: an unparsable body, a non-object
JSON value, or a parsed request object. -/
inductive Incoming where
  | parseFail (msg : String)
  | notObject
  | obj (r : RawRequest)

/-- `mcp_endpoint` (`http_server_v2.py` 143-206): parse / structure
checks, version check, method check, dispatch, and the mapping of
escaped exceptions onto error envelopes (`ValueError` →
MethodNotFound, `TypeError` → InvalidParams, anything else → the outer
`except` → InternalError).  The 503 short-circuit for an entirely
unconstructed server object is outside this model: the
`NWSLAnalyticsServer` constructor catches store failures (see
`serverInit`), so startup completes and `mcp_server` is set. -/
def mcpEndpoint (st : ServerState) (web : Web) (inc : Incoming) : Response :=
  match inc with
  | .parseFail m => .error .null PARSE_ERROR "Parse error" (some m)
  | .notObject => .error .null INVALID_REQUEST "Request must be an object" none
  | .obj r =>
    if r.jsonrpc.getD "2.0" ≠ "2.0" then
      .error r.id INVALID_REQUEST "Invalid JSON-RPC version" none
    else
      match r.method with
      | none => .error r.id INVALID_REQUEST "Method is required" none
      | some m =>
        if m = "" then .error r.id INVALID_REQUEST "Method is required" none
        else
          match handleMethod st web m r.params with
          | .ok res => .success r.id res
          | .error (.valueError msg) => .error r.id METHOD_NOT_FOUND msg none
          | .error (.typeError msg) => .error r.id INVALID_PARAMS msg none
          | .error (.attributeError msg) =>
            .error r.id INTERNAL_ERROR "Internal error" (some msg)

/-- A `tools/call` request object with the default version field. -/
def toolsCallReq (rid : ReqId) (n : String) (args : Args) : RawRequest :=
  ⟨some "2.0", rid, some "tools/call", callParams n args⟩

/-! ### Concrete instantiation data for the theorems below -/

/-- A store whose every query succeeds with zero rows and whose query
builders all raise. -/
def emptyStore : Store :=
  { query := fun _ => .ok []
    getPlayerXgAnalysis := fun _ _ _ => .error "builder unavailable"
    analyzeGoalGenerationPatterns := fun _ => .error "builder unavailable"
    findXgOverperformers := fun _ _ => .error "builder unavailable"
    calculateTeamXgEfficiency := fun _ => .error "builder unavailable"
    analyzeShootingProfiles := fun _ _ => .error "builder unavailable"
    analyzePositionalShootingPatterns := fun _ => .error "builder unavailable"
    findShotQualityLeaders := fun _ _ => .error "builder unavailable"
    analyzeTeamShootingStyles := fun _ => .error "builder unavailable"
    calculateReplacementBaselines := fun _ _ => .error "builder unavailable"
    calculatePlayerWarEstimates := fun _ _ => .error "builder unavailable"
    analyzeTeamRosterConstruction := fun _ => .error "builder unavailable"
    findUndervaluedPlayers := fun _ _ => .error "builder unavailable" }

/-- A store whose every query returns 51 (empty) rows, for exercising
the raw-query truncation path. -/
def c4Store : Store :=
  { emptyStore with query := fun _ => .ok (List.replicate 51 []) }

/-- The server state after a failed store-client construction
(basic catalog, `bigquery_client is None`). -/
def stNoStore : ServerState := ⟨true, none⟩

/-- The fully-live server state over the empty store
(research catalog). -/
def stResearch : ServerState := ⟨true, some emptyStore⟩

/-- A web on which every fetch fails with `down`. -/
def webNone : Web := fun _ => .err "down"

/-- A web on which every fetch fails with `alt`. -/
def webAlt : Web := fun _ => .err "alt"

/-- Arguments of a well-formed `ingest_current_roster` call. -/
def ingestArgs : Args :=
  [("team", .str "Angel City"),
   ("fbref_url", .str "https://fbref.com/en/squads/ae38d267/Angel-City-FC-Stats")]

/-! ## Theorems -/

/-- Every tool name whose dispatch arm never raises (all of them except
the three research-analysis tools, whose availability test can raise
`AttributeError`): a `tools/call` on such a name returns a success
envelope with a single text block, for every server state, web and
argument mapping. -/
theorem toolCallTotal (st : ServerState) (web : Web) (rid : ReqId) (args : Args)
    (n : String)
    (hn : n ∈ ["query_raw_data", "get_team_roster", "roster_intelligence",
      "ingest_current_roster", "get_raw_data", "get_player_stats", "get_team_stats",
      "get_standings", "get_match_results", "analyze_player_performance",
      "analyze_team_performance", "find_correlations", "compare_teams",
      "get_nwsl_players", "get_nwsl_teams", "get_nwsl_games"]) :
    ∃ t : String,
      mcpEndpoint st web (.obj (toolsCallReq rid n args)) =
        .success rid (.toolsCall [tc t]) := by
  simp only [List.mem_cons, List.not_mem_nil, or_false] at hn
  rcases hn with rfl | rfl | rfl | rfl | rfl | rfl | rfl | rfl | rfl | rfl | rfl | rfl | rfl | rfl | rfl | rfl <;>
    exact ⟨_, rfl⟩

/-- C5: a `tools/call` on `get_player_stats` with empty arguments is
answered, for every server state and store, by a successful result
whose single text block is the explicit season-required message — no
default season is substituted, and the response does not depend on the
store at all. -/
theorem C5_missing_season_explicit_text (st st' : ServerState) (web web' : Web)
    (rid : ReqId) :
    mcpEndpoint st web (.obj (toolsCallReq rid "get_player_stats" [])) =
      .success rid (.toolsCall [tc seasonRequired]) ∧
    containsSub seasonRequired "Season parameter is required" = true ∧
    mcpEndpoint st web (.obj (toolsCallReq rid "get_player_stats" [])) =
      mcpEndpoint st' web' (.obj (toolsCallReq rid "get_player_stats" [])) :=
  ⟨rfl, by decide, rfl⟩

/-- C7 counterexample: a params mapping carrying a non-dict
`clientInfo` (here `null`, whose Python type is `NoneType`) makes the
logging line of `handle_initialize` raise `AttributeError`, and the
response is the InternalError (-32603) envelope, not a success — so
`initialize` does not succeed for *every* params mapping. -/
theorem C7_counterexample :
    mcpEndpoint stResearch webNone
        (.obj ⟨some "2.0", .num 7, some "initialize", ⟨none, none, [], .nondict "NoneType"⟩⟩) =
      .error (.num 7) (-32603) "Internal error"
        (some "'NoneType' object has no attribute 'get'") ∧
    (mcpEndpoint stResearch webNone
        (.obj ⟨some "2.0", .num 7, some "initialize",
          ⟨none, none, [], .nondict "NoneType"⟩⟩)).isError = true :=
  ⟨rfl, rfl⟩

/-- C7 amended: for every params mapping whose `clientInfo`, when
present, is a dict, `initialize` succeeds with the fixed
protocol-version / server-info / capabilities record, whatever the
server state; in particular the state produced by a failed
store-client construction (`serverInit false`) gives the same answer.
(A present non-dict `clientInfo` instead yields the -32603 envelope,
see the counterexample; that path is equally store-independent.) -/
theorem C7_amended_initialize_independent_of_store (st : ServerState) (web : Web)
    (rid : ReqId) (params : Params) (imp : Bool) (store : Store) (web' : Web)
    (hci : params.clientInfo.getable = true) :
    mcpEndpoint st web (.obj ⟨some "2.0", rid, some "initialize", params⟩) =
      .success rid
        (.initRes "2024-11-05" "nwsl-analytics" "1.0.0" ["tools", "resources", "prompts"]) ∧
    mcpEndpoint (serverInit false imp store) web'
        (.obj ⟨some "2.0", rid, some "initialize", params⟩) =
      .success rid
        (.initRes "2024-11-05" "nwsl-analytics" "1.0.0" ["tools", "resources", "prompts"]) := by
  rcases params with ⟨nm, u, ar, ci⟩
  cases ci with
  | absent => exact ⟨rfl, rfl⟩
  | obj fs => exact ⟨rfl, rfl⟩
  | nondict t => simp [ClientInfo.getable] at hci

/-- C7 witness: empty params on the failed-store state and on an
arbitrary live state. -/
theorem C7_witness :
    mcpEndpoint stResearch webNone
        (.obj ⟨some "2.0", .num 14, some "initialize", Params.empty⟩) =
      .success (.num 14)
        (.initRes "2024-11-05" "nwsl-analytics" "1.0.0" ["tools", "resources", "prompts"]) ∧
    mcpEndpoint (serverInit false true emptyStore) webAlt
        (.obj ⟨some "2.0", .num 14, some "initialize", Params.empty⟩) =
      .success (.num 14)
        (.initRes "2024-11-05" "nwsl-analytics" "1.0.0" ["tools", "resources", "prompts"]) :=
  C7_amended_initialize_independent_of_store stResearch webNone (.num 14) Params.empty
    true emptyStore webAlt (by decide)

/-- C2 counterexample: `get_player_stats` is in the advertised catalog
and the empty argument mapping violates its schema (`season` is
required), yet the call is *not* rejected with InvalidParams before
dispatch: it produces a successful (non-error) envelope whose text is
the handler's defensive message. -/
theorem C2_counterexample :
    (toolNames stNoStore).contains "get_player_stats" = true ∧
    satisfiesTool stNoStore "get_player_stats" [] = false ∧
    mcpEndpoint stNoStore webNone (.obj (toolsCallReq (.num 2) "get_player_stats" [])) =
      .success (.num 2) (.toolsCall [tc seasonRequired]) ∧
    (mcpEndpoint stNoStore webNone
      (.obj (toolsCallReq (.num 2) "get_player_stats" []))).isError = false :=
  ⟨by decide, by decide, rfl, rfl⟩

/-- C2 amended: the dispatcher performs no input-schema validation.
InvalidParams (-32602) is signalled exactly for a missing (falsey)
`name` in the params; a call whose arguments violate the matching
schema is dispatched anyway and — for a missing required `season` —
answered by a successful text result. -/
theorem C2_amended_invalid_params_only_for_missing_name (st : ServerState)
    (web : Web) (rid : ReqId) (args : Args) :
    mcpEndpoint st web (.obj ⟨some "2.0", rid, some "tools/call", ⟨none, none, args, .absent⟩⟩) =
      .error rid (-32602) "Missing required parameter: name" none ∧
    mcpEndpoint st web (.obj (toolsCallReq rid "get_player_stats" [])) =
      .success rid (.toolsCall [tc seasonRequired]) :=
  ⟨rfl, rfl⟩

/-- C3 counterexample: a `get_player_stats` call whose query returns
zero rows yields a single text block that is only the section header —
it does not state that no data was found. -/
theorem C3_counterexample :
    mcpEndpoint stResearch webNone
        (.obj (toolsCallReq (.num 3) "get_player_stats" [("season", .str "2024")])) =
      .success (.num 3) (.toolsCall [tc "Player Statistics (2024):\n\n"]) ∧
    containsSub "Player Statistics (2024):\n\n" "no data" = false ∧
    containsSub "Player Statistics (2024):\n\n" "No data" = false ∧
    containsSub "Player Statistics (2024):\n\n" "found" = false :=
  ⟨rfl, by decide, by decide, by decide⟩

/-- C6 counterexample: the empty string is a method string outside the
fixed method set, but the response carries InvalidRequest (-32600,
`Method is required`), not MethodNotFound (-32601). -/
theorem C6_counterexample :
    ("" ∉ ["initialize", "tools/list", "tools/call", "resources/list",
      "resources/read", "prompts/list", "prompts/get"]) ∧
    mcpEndpoint stResearch webNone (.obj ⟨some "2.0", .num 6, some "", Params.empty⟩) =
      .error (.num 6) (-32600) "Method is required" none ∧
    ((-32600 : Int) ≠ -32601) :=
  ⟨by decide, rfl, by decide⟩

/-- C9 counterexample: two identical `ingest_current_roster` calls
against the same (unchanged) store return different text when the
external FBref page changed between them — the result is not a
function of (tool name, arguments, store contents). -/
theorem C9_counterexample :
    mcpEndpoint stResearch webNone (.obj (toolsCallReq (.num 9) "ingest_current_roster" ingestArgs)) =
      .success (.num 9) (.toolsCall [tc "Error fetching FBref page: down"]) ∧
    mcpEndpoint stResearch webAlt (.obj (toolsCallReq (.num 9) "ingest_current_roster" ingestArgs)) =
      .success (.num 9) (.toolsCall [tc "Error fetching FBref page: alt"]) ∧
    ("ingest_current_roster" ∈ toolNames stResearch) ∧
    mcpEndpoint stResearch webNone (.obj (toolsCallReq (.num 9) "ingest_current_roster" ingestArgs)) ≠
      mcpEndpoint stResearch webAlt (.obj (toolsCallReq (.num 9) "ingest_current_roster" ingestArgs)) := by
  refine ⟨rfl, rfl, by decide, ?_⟩
  intro h
  rw [show mcpEndpoint stResearch webNone (.obj (toolsCallReq (.num 9) "ingest_current_roster" ingestArgs)) =
        .success (.num 9) (.toolsCall [tc "Error fetching FBref page: down"]) from rfl,
      show mcpEndpoint stResearch webAlt (.obj (toolsCallReq (.num 9) "ingest_current_roster" ingestArgs)) =
        .success (.num 9) (.toolsCall [tc "Error fetching FBref page: alt"]) from rfl] at h
  simp [tc] at h

/-- C1: for every tool name in the catalog that `tools/list` returns
for the current server state, the catalog holds exactly one descriptor
of that name, and a `tools/call` on it with schema-satisfying arguments
returns a success envelope whose content is a (singleton) list of
`type: "text"` blocks — never a protocol-level error, whatever the
store does. -/
theorem C1_catalog_unique_and_call_returns_text (st : ServerState) (web : Web)
    (rid : ReqId) (n : String) (args : Args)
    (hn : n ∈ toolNames st) (_hargs : satisfiesTool st n args = true) :
    (toolNames st).count n = 1 ∧
    ∃ t : String,
      mcpEndpoint st web (.obj (toolsCallReq rid n args)) =
        .success rid (.toolsCall [tc t]) := by
  rcases st with ⟨imp, bq⟩
  cases imp with
  | true =>
    cases bq with
    | some s =>
      simp only [toolNames, toolsOf, xgAvailable, researchTools, Bool.true_and,
        Option.isSome_some, if_pos, List.map_cons, List.map_nil, List.mem_cons,
        List.not_mem_nil, or_false] at hn
      rcases hn with rfl | rfl | rfl | rfl | rfl | rfl | rfl
      · exact ⟨rfl, _, rfl⟩
      · exact ⟨rfl, _, rfl⟩
      · exact ⟨rfl, _, rfl⟩
      · exact ⟨rfl, toolCallTotal _ web rid args _ (by decide)⟩
      · exact ⟨rfl, toolCallTotal _ web rid args _ (by decide)⟩
      · exact ⟨rfl, toolCallTotal _ web rid args _ (by decide)⟩
      · exact ⟨rfl, toolCallTotal _ web rid args _ (by decide)⟩
    | none =>
      simp only [toolNames, toolsOf, xgAvailable, basicTools, Bool.true_and,
        Option.isSome_none, if_neg, Bool.false_eq_true, not_false_iff,
        List.map_cons, List.map_nil, List.mem_cons, List.not_mem_nil, or_false] at hn
      rcases hn with rfl | rfl | rfl | rfl | rfl | rfl | rfl | rfl | rfl | rfl | rfl | rfl <;>
        exact ⟨rfl, toolCallTotal _ web rid args _ (by decide)⟩
  | false =>
    cases bq with
    | some s =>
      simp only [toolNames, toolsOf, xgAvailable, basicTools, Bool.false_and,
        if_neg, Bool.false_eq_true, not_false_iff,
        List.map_cons, List.map_nil, List.mem_cons, List.not_mem_nil, or_false] at hn
      rcases hn with rfl | rfl | rfl | rfl | rfl | rfl | rfl | rfl | rfl | rfl | rfl | rfl <;>
        exact ⟨rfl, toolCallTotal _ web rid args _ (by decide)⟩
    | none =>
      simp only [toolNames, toolsOf, xgAvailable, basicTools, Bool.false_and,
        if_neg, Bool.false_eq_true, not_false_iff,
        List.map_cons, List.map_nil, List.mem_cons, List.not_mem_nil, or_false] at hn
      rcases hn with rfl | rfl | rfl | rfl | rfl | rfl | rfl | rfl | rfl | rfl | rfl | rfl <;>
        exact ⟨rfl, toolCallTotal _ web rid args _ (by decide)⟩

/-- C1 witness: `get_player_stats` with a valid `season` on the state
whose store-client construction failed. -/
theorem C1_witness :
    (toolNames stNoStore).count "get_player_stats" = 1 ∧
    ∃ t : String,
      mcpEndpoint stNoStore webNone
          (.obj (toolsCallReq (.num 1) "get_player_stats" [("season", .str "2024")])) =
        .success (.num 1) (.toolsCall [tc t]) :=
  C1_catalog_unique_and_call_returns_text stNoStore webNone (.num 1)
    "get_player_stats" [("season", .str "2024")] (by decide) (by decide)

/-- C9 amended: every tool call is answered independently of the
external web — hence is a function of (tool name, arguments, store) —
for every catalog tool except `ingest_current_roster`, which fetches an
FBref page.  (No handler performs a store write: the single
`update_database` flag of the excepted tool is unimplemented in the
source and only appends a note to the text.) -/
theorem C9_amended_deterministic_except_ingest (st : ServerState) (w1 w2 : Web)
    (rid : ReqId) (n : String) (args : Args)
    (hn : n ∈ toolNames st) (hne : n ≠ "ingest_current_roster") :
    mcpEndpoint st w1 (.obj (toolsCallReq rid n args)) =
      mcpEndpoint st w2 (.obj (toolsCallReq rid n args)) := by
  rcases st with ⟨imp, bq⟩
  cases imp with
  | true =>
    cases bq with
    | some s =>
      simp only [toolNames, toolsOf, xgAvailable, researchTools, Bool.true_and,
        Option.isSome_some, if_pos, List.map_cons, List.map_nil, List.mem_cons,
        List.not_mem_nil, or_false] at hn
      rcases hn with rfl | rfl | rfl | rfl | rfl | rfl | rfl
      · rfl
      · rfl
      · rfl
      · rfl
      · rfl
      · rfl
      · exact absurd rfl hne
    | none =>
      simp only [toolNames, toolsOf, xgAvailable, basicTools, Bool.true_and,
        Option.isSome_none, if_neg, Bool.false_eq_true, not_false_iff,
        List.map_cons, List.map_nil, List.mem_cons, List.not_mem_nil, or_false] at hn
      rcases hn with rfl | rfl | rfl | rfl | rfl | rfl | rfl | rfl | rfl | rfl | rfl | rfl <;> rfl
  | false =>
    cases bq with
    | some s =>
      simp only [toolNames, toolsOf, xgAvailable, basicTools, Bool.false_and,
        if_neg, Bool.false_eq_true, not_false_iff,
        List.map_cons, List.map_nil, List.mem_cons, List.not_mem_nil, or_false] at hn
      rcases hn with rfl | rfl | rfl | rfl | rfl | rfl | rfl | rfl | rfl | rfl | rfl | rfl <;> rfl
    | none =>
      simp only [toolNames, toolsOf, xgAvailable, basicTools, Bool.false_and,
        if_neg, Bool.false_eq_true, not_false_iff,
        List.map_cons, List.map_nil, List.mem_cons, List.not_mem_nil, or_false] at hn
      rcases hn with rfl | rfl | rfl | rfl | rfl | rfl | rfl | rfl | rfl | rfl | rfl | rfl <;> rfl

/-- C9 witness: `get_team_stats` answered identically over two
different webs. -/
theorem C9_witness :
    mcpEndpoint stNoStore webNone
        (.obj (toolsCallReq (.num 10) "get_team_stats" [("season", .str "2024")])) =
      mcpEndpoint stNoStore webAlt
        (.obj (toolsCallReq (.num 10) "get_team_stats" [("season", .str "2024")])) :=
  C9_amended_deterministic_except_ingest stNoStore webNone webAlt (.num 10)
    "get_team_stats" [("season", .str "2024")] (by decide) (by decide)

/-- C8: for every request that parsed as a JSON object, the response
envelope — success or error — echoes the request's `id` unchanged. -/
theorem C8_id_roundtrip (st : ServerState) (web : Web) (r : RawRequest) :
    (mcpEndpoint st web (.obj r)).rid = r.id := by
  rcases r with ⟨j, rid, m, p⟩
  show (mcpEndpoint st web (.obj ⟨j, rid, m, p⟩)).rid = rid
  by_cases hv : j.getD "2.0" = "2.0"
  · cases m with
    | none => simp [mcpEndpoint, hv, Response.rid]
    | some mm =>
      by_cases hmm : mm = ""
      · subst hmm; simp [mcpEndpoint, hv, Response.rid]
      · cases h : handleMethod st web mm p with
        | ok res => simp [mcpEndpoint, hv, hmm, h, Response.rid]
        | error e => cases e <;> simp [mcpEndpoint, hv, hmm, h, Response.rid]
  · simp [mcpEndpoint, hv, Response.rid]

/-- C6 amended: a parsed request whose method string is *nonempty* and
outside the fixed method set is answered with MethodNotFound (-32601)
naming the method, and the answer is independent of server state and
web (no handler or store access runs); an empty method string instead
falls into the `Method is required` InvalidRequest branch (see the
counterexample). -/
theorem C6_amended_unknown_nonempty_method (st st' : ServerState) (web web' : Web)
    (rid : ReqId) (params : Params) (m : String)
    (hm : m ∉ ["initialize", "tools/list", "tools/call", "resources/list",
      "resources/read", "prompts/list", "prompts/get"])
    (hne : m ≠ "") :
    mcpEndpoint st web (.obj ⟨some "2.0", rid, some m, params⟩) =
      .error rid (-32601) ("Method not found: " ++ m) none ∧
    mcpEndpoint st web (.obj ⟨some "2.0", rid, some m, params⟩) =
      mcpEndpoint st' web' (.obj ⟨some "2.0", rid, some m, params⟩) := by
  simp only [List.mem_cons, List.not_mem_nil, or_false, not_or] at hm
  obtain ⟨h1, h2, h3, h4, h5, h6, h7⟩ := hm
  constructor
  · simp [mcpEndpoint, handleMethod, h1, h2, h3, h4, h5, h6, h7, hne, METHOD_NOT_FOUND]
  · simp [mcpEndpoint, handleMethod, h1, h2, h3, h4, h5, h6, h7, hne]

/-- C6 witness: the unknown method `tools/frobnicate` gives -32601. -/
theorem C6_witness :
    mcpEndpoint stResearch webNone
        (.obj ⟨some "2.0", .num 11, some "tools/frobnicate", Params.empty⟩) =
      .error (.num 11) (-32601) ("Method not found: " ++ "tools/frobnicate") none ∧
    mcpEndpoint stResearch webNone
        (.obj ⟨some "2.0", .num 11, some "tools/frobnicate", Params.empty⟩) =
      mcpEndpoint stNoStore webAlt
        (.obj ⟨some "2.0", .num 11, some "tools/frobnicate", Params.empty⟩) :=
  C6_amended_unknown_nonempty_method stResearch stNoStore webNone webAlt (.num 11)
    Params.empty "tools/frobnicate" (by decide) (by decide)

/-- C10: a request object without a `jsonrpc` field is processed
exactly as one carrying `"2.0"`, and the `Invalid JSON-RPC version`
InvalidRequest response arises precisely for requests carrying a
`jsonrpc` field whose value differs from `"2.0"`. -/
theorem C10_jsonrpc_default_and_version_error (st : ServerState) (web : Web)
    (rid : ReqId) (m : Option String) (p : Params) (r : RawRequest) :
    mcpEndpoint st web (.obj ⟨none, rid, m, p⟩) =
      mcpEndpoint st web (.obj ⟨some "2.0", rid, m, p⟩) ∧
    (mcpEndpoint st web (.obj r) =
        .error r.id (-32600) "Invalid JSON-RPC version" none ↔
      ∃ v, r.jsonrpc = some v ∧ v ≠ "2.0") := by
  refine ⟨rfl, ?_⟩
  rcases r with ⟨j, rid', m', p'⟩
  show mcpEndpoint st web (.obj ⟨j, rid', m', p'⟩) =
      .error rid' (-32600) "Invalid JSON-RPC version" none ↔ ∃ v, j = some v ∧ v ≠ "2.0"
  constructor
  · intro h
    by_cases hv : j.getD "2.0" = "2.0"
    · exfalso
      cases m' with
      | none => simp [mcpEndpoint, hv] at h
      | some mm =>
        by_cases hmm : mm = ""
        · subst hmm; simp [mcpEndpoint, hv] at h
        · cases hh : handleMethod st web mm p' with
          | ok res => simp [mcpEndpoint, hv, hmm, hh] at h
          | error e =>
            cases e <;> simp [mcpEndpoint, hv, hmm, hh, METHOD_NOT_FOUND,
              INVALID_PARAMS, INTERNAL_ERROR] at h
    · cases j with
      | none => simp at hv
      | some v => exact ⟨v, rfl, by simpa using hv⟩
  · rintro ⟨v, rfl, hv⟩
    simp [mcpEndpoint, hv, INVALID_REQUEST]

/-- C3 amended: a tool call whose underlying query returns zero rows is
answered by a success envelope with a single text block — never an
empty content list, never a raised error — but the block does not
always state that no data was found: `get_player_stats` renders only
its header, while `get_team_roster` does state it explicitly. -/
theorem C3_amended_empty_result_single_block (store : Store) (web : Web) (rid : ReqId)
    (hempty : ∀ q, store.query q = .ok []) :
    mcpEndpoint ⟨true, some store⟩ web
        (.obj (toolsCallReq rid "get_player_stats" [("season", .str "2024")])) =
      .success rid (.toolsCall [tc "Player Statistics (2024):\n\n"]) ∧
    mcpEndpoint ⟨true, some store⟩ web
        (.obj (toolsCallReq rid "get_team_roster"
          [("team", .str "Courage"), ("season", .str "2024")])) =
      .success rid
        (.toolsCall [tc "No players found for Courage in 2024 with minimum 200 minutes played."]) ∧
    containsSub "No players found for Courage in 2024 with minimum 200 minutes played."
      "No players found" = true := by
  have hsf : store.query = fun _ => (.ok [] : Py (List Row)) := funext hempty
  refine ⟨?_, ?_, by decide⟩
  · have httext : getPlayerStatsText ⟨true, some store⟩ [("season", .str "2024")] =
        "Player Statistics (2024):\n\n" := by
      simp only [getPlayerStatsText, getPlayerStatsBody, runQuery, hsf]
      decide
    exact Eq.trans rfl (congrArg (fun t => Response.success rid (.toolsCall [tc t])) httext)
  · have httext : getTeamRosterText ⟨true, some store⟩
        [("team", .str "Courage"), ("season", .str "2024")] =
        "No players found for Courage in 2024 with minimum 200 minutes played." := by
      simp only [getTeamRosterText, getTeamRosterBody, runQuery, hsf]
      decide
    exact Eq.trans rfl (congrArg (fun t => Response.success rid (.toolsCall [tc t])) httext)

/-- C3 witness: the two zero-row calls against the concrete empty
store. -/
theorem C3_witness :
    mcpEndpoint ⟨true, some emptyStore⟩ webNone
        (.obj (toolsCallReq (.num 12) "get_player_stats" [("season", .str "2024")])) =
      .success (.num 12) (.toolsCall [tc "Player Statistics (2024):\n\n"]) ∧
    mcpEndpoint ⟨true, some emptyStore⟩ webNone
        (.obj (toolsCallReq (.num 12) "get_team_roster"
          [("team", .str "Courage"), ("season", .str "2024")])) =
      .success (.num 12)
        (.toolsCall [tc "No players found for Courage in 2024 with minimum 200 minutes played."]) ∧
    containsSub "No players found for Courage in 2024 with minimum 200 minutes played."
      "No players found" = true :=
  C3_amended_empty_result_single_block emptyStore webNone (.num 12) (fun _ => rfl)

/-- C4: whenever the query of the raw-query tool returns more than 50
rows, the response text carries the row-count header, a rendering in
which exactly 50 of the rows appear (the centered pandas truncation),
and the appended note naming both the 50 rows shown and the total —
the truncation is never silent. -/
theorem C4_raw_query_truncation_note (imp : Bool) (store : Store) (web : Web)
    (rid : ReqId) (q : String) (rows : List Row)
    (hq : ∀ s, store.query s = .ok rows) (hlen : 50 < rows.length) :
    mcpEndpoint ⟨imp, some store⟩ web
        (.obj (toolsCallReq rid "query_raw_data" [("query", .str q)])) =
      .success rid (.toolsCall [tc ("Query Results (" ++ toString rows.length ++
        " rows):\n\n" ++ dfToString rows ++ "\n\n... showing first 50 of " ++
        toString rows.length ++ " rows")]) ∧
    (dfRenderedRows rows).length = 50 ∧
    dfToString rows = String.intercalate "\n"
      ((rows.take 25).map renderRow ++ ["..."] ++ (lastN 25 rows).map renderRow) := by
  have hsf : store.query = fun _ => (.ok rows : Py (List Row)) := funext hq
  refine ⟨?_, ?_, ?_⟩
  · have httext : rawQueryText ⟨imp, some store⟩ [("query", .str q)] =
        "Query Results (" ++ toString rows.length ++ " rows):\n\n" ++ dfToString rows ++
        "\n\n... showing first 50 of " ++ toString rows.length ++ " rows" := by
      simp [rawQueryText, requireArg, argGet?, argGetD, asQueryString, pyStr, hsf,
        rawQueryFormat, hlen, bind, Except.bind, pure, Except.pure]
    exact Eq.trans rfl (congrArg (fun t => Response.success rid (.toolsCall [tc t])) httext)
  · simp only [dfRenderedRows, if_neg (by omega : ¬ rows.length ≤ 50), lastN,
      List.length_append, List.length_take, List.length_drop]
    omega
  · simp only [dfToString, if_neg (by omega : ¬ rows.length ≤ 50)]

/-- C4 witness: a 51-row result on the concrete store. -/
theorem C4_witness :
    mcpEndpoint ⟨true, some c4Store⟩ webNone
        (.obj (toolsCallReq (.num 13) "query_raw_data" [("query", .str "SELECT 1")])) =
      .success (.num 13) (.toolsCall [tc ("Query Results (" ++
        toString (List.replicate 51 ([] : Row)).length ++ " rows):\n\n" ++
        dfToString (List.replicate 51 ([] : Row)) ++ "\n\n... showing first 50 of " ++
        toString (List.replicate 51 ([] : Row)).length ++ " rows")]) ∧
    (dfRenderedRows (List.replicate 51 ([] : Row))).length = 50 ∧
    dfToString (List.replicate 51 ([] : Row)) = String.intercalate "\n"
      (((List.replicate 51 ([] : Row)).take 25).map renderRow ++ ["..."] ++
        (lastN 25 (List.replicate 51 ([] : Row))).map renderRow) :=
  C4_raw_query_truncation_note true c4Store webNone (.num 13) "SELECT 1"
    (List.replicate 51 []) (fun _ => rfl) (by decide)

end NWSL
